import Mathlib

/-!
Shallow embedding of the doctor_app clinic application (Python/Flask/SQLAlchemy)
for specification checking.  The definitions below are translated from:
  - doctor_app/models.py            (User, Patient, Visit, Diagnosis, access scoping)
  - doctor_app/patients/routes.py   (check_duplicate_patient, export_patients, import_patients)
  - doctor_app/patients/forms.py    (validate_date_of_birth)
  - doctor_app/visits/routes.py     (new_visit, edit_visit)

The relational store is modelled as explicit lists in insertion (rowid) order;
`Query.first()` is `List.find?`, `filter_by` is `List.filter`.  Autoincrement
primary keys are modelled with explicit counters.  Timestamp columns that no
verified claim depends on (`created_at`) are omitted.  Machine-level details of
Python (truthiness of `None`/`""`/`0`, `str()` coercion) are modelled explicitly.
-/

/-- Python `str.strip()`: drop whitespace from both ends.  Modelled over the
character list (rather than core `String.trim`'s byte positions) so that
idempotence is provable. -/
def String.pyStrip (s : String) : String :=
  String.mk (List.rdropWhile Char.isWhitespace (s.data.dropWhile Char.isWhitespace))

namespace DoctorApp

/-- A calendar date (year, month, day), standing in for Python `datetime.date`. -/
structure Date where
  year : Nat
  month : Nat
  day : Nat
deriving DecidableEq, Repr

/-- A date with a time of day, standing in for Python `datetime.datetime`. -/
structure DateTime where
  date : Date
  hour : Nat
  minute : Nat
  second : Nat
deriving DecidableEq, Repr

/-- Zero-pad a numeral to the given width (for `str(datetime)` rendering). -/
def padNum (width n : Nat) : String :=
  let s := toString n
  if s.length < width then String.mk (List.replicate (width - s.length) (Char.ofNat 48)) ++ s else s

/-- Rendering of a Python `datetime` by `str(...)`: `YYYY-MM-DD HH:MM:SS`. -/
def DateTime.render (d : DateTime) : String :=
  padNum 4 d.date.year ++ "-" ++ padNum 2 d.date.month ++ "-" ++ padNum 2 d.date.day ++ " " ++
    padNum 2 d.hour ++ ":" ++ padNum 2 d.minute ++ ":" ++ padNum 2 d.second

/-- A raw spreadsheet cell as handed over by `openpyxl` (`values_only=True`):
either empty (`None`), a string, an integer, or a datetime.  Positions past the
end of a short row read as `empty` (the code guards with `len(row) > i`). -/
inductive Cell where
  | empty
  | str (s : String)
  | int (n : Int)
  | dt (d : DateTime)
deriving DecidableEq, Repr

/-- Python truthiness of a cell value (`None`, `""` and `0` are falsy). -/
def Cell.truthy : Cell → Bool
  | .empty => false
  | .str s => s ≠ ""
  | .int n => n ≠ 0
  | .dt _ => true

/-- Python `str(...)` applied to a cell value. -/
def Cell.pyStr : Cell → String
  | .empty => "None"
  | .str s => s
  | .int n => toString n
  | .dt d => d.render

/-- Python truthiness of an optional string (`None` and `""` are falsy). -/
def pyTruthy : Option String → Bool
  | none => false
  | some s => s ≠ ""

/-- `x.strip() if x else ""` — the normalization used by `check_duplicate_patient`. -/
def pyStripOrEmpty (o : Option String) : String :=
  match o with
  | none => ""
  | some s => if s = "" then "" else s.pyStrip

/-- models.py `User`: only the columns the verified logic reads.
`role` is one of "admin", "doctor", "assistant"; `doctor_id` is the
supervising doctor of an assistant. -/
structure User where
  id : Nat
  role : String
  doctor_id : Option Nat
deriving DecidableEq, Repr

/-- models.py `User.is_assistant`. -/
def User.is_assistant (u : User) : Bool := u.role == "assistant"

/-- models.py `User.is_doctor`. -/
def User.is_doctor (u : User) : Bool := u.role == "doctor"

/-- models.py `User.is_admin`. -/
def User.is_admin (u : User) : Bool := u.role == "admin"

/-- models.py `User.can_delete_patient` ("Assistants cannot delete patients"). -/
def User.can_delete_patient (u : User) : Bool := u.role == "admin" || u.role == "doctor"

/-- models.py `User.can_import_export` ("Assistants cannot import/export"). -/
def User.can_import_export (u : User) : Bool := u.role == "admin" || u.role == "doctor"

/-- models.py `Patient` (the `created_at` timestamp column is omitted). -/
structure Patient where
  id : Nat
  full_name : String
  phone : Option String
  date_of_birth : Option Date
  doctor_id : Option Nat
deriving DecidableEq, Repr

/-- models.py `Visit`. -/
structure Visit where
  id : Nat
  patient_id : Nat
  visit_date : DateTime
  clinician : Option String
  notes : Option String
  created_by : Option Nat
deriving DecidableEq, Repr

/-- models.py `Diagnosis` (its own autoincrement id is never read, so omitted). -/
structure Diagnosis where
  visit_id : Nat
  code : Option String
  description : String
deriving DecidableEq, Repr

/-- The relational store: tables in insertion (rowid) order, plus the
autoincrement counters for patient and visit primary keys. -/
structure Store where
  patients : List Patient
  visits : List Visit
  diagnoses : List Diagnosis
  nextPid : Nat
  nextVid : Nat
deriving DecidableEq, Repr

/-- Python falsiness of the stored phone column (`not duplicate.phone`):
`None` and the empty string count as "no phone". -/
def phoneAbsent : Option String → Bool
  | none => true
  | some s => s == ""

/-- The base query of `check_duplicate_patient`: the doctor's patients, with
the edited record removed when `exclude_patient_id` is Python-truthy
(`if exclude_patient_id:`). -/
def dupQuery (doctor_id : Nat) (exclude_patient_id : Option Nat)
    (patients : List Patient) : List Patient :=
  let q0 := patients.filter (fun p : Patient => p.doctor_id == some doctor_id)
  match exclude_patient_id with
  | some e => if e ≠ 0 then q0.filter (fun p : Patient => p.id ≠ e) else q0
  | none => q0

/-- Strategy 2 of `check_duplicate_patient` (lines 42-52): first patient of
the query with exact name match; returned only when the stored phone or the
candidate phone is absent, else `none`. -/
def dupStrat2 (name ph : String) (q : List Patient) : Option Patient :=
  match q.find? (fun p : Patient => p.full_name == name) with
  | some dup =>
      -- "Allow if one has no phone and other does"
      if phoneAbsent dup.phone || ph == "" then
        some dup
      else
        -- both phones present but different: might be a different person
        none
  | none => none

/-- patients/routes.py `check_duplicate_patient` (lines 12-54).
Strategy 1 (only when the normalized candidate phone is non-empty): first
patient of the doctor with exact name AND exact phone match; otherwise fall
through to strategy 2. -/
def check_duplicate_patient (full_name phone : Option String) (doctor_id : Nat)
    (exclude_patient_id : Option Nat) (patients : List Patient) : Option Patient :=
  let name := pyStripOrEmpty full_name
  let ph := pyStripOrEmpty phone
  let q := dupQuery doctor_id exclude_patient_id patients
  if ph ≠ "" then
    match q.find? (fun p : Patient => p.full_name == name && p.phone == some ph) with
    | some dup => some dup
    | none => dupStrat2 name ph q
  else dupStrat2 name ph q

/-- models.py `User.get_accessible_patients` (lines 58-92): patients whose
`doctor_id` equals the target doctor id (the account itself, or the
supervising doctor for an assistant), together with patients on which this
account has created at least one visit. -/
def get_accessible_patients (u : User) (st : Store) : List Patient :=
  let target : Option Nat := if u.is_assistant then u.doctor_id else some u.id
  st.patients.filter (fun p =>
    p.doctor_id == target ||
      st.visits.any (fun v => v.patient_id == p.id && v.created_by == some u.id))

/-- patients/routes.py `export_patients` (lines 221-226): the set of patients
selected for the Excel export — "only current user's patients", i.e. those
whose `doctor_id` is the exporting account's own id (ordering by name does not
affect which patients are selected and is not modelled). -/
def export_selected_patients (u : User) (st : Store) : List Patient :=
  st.patients.filter (fun p => p.doctor_id == some u.id)

/-! ### `datetime.strptime` model

CPython compiles each format to a regex: `%Y` is exactly four digits, `%m` is
1-2 digits valued 1-12, `%d` is 1-2 digits valued 1-31, `%H` 0-23, `%M`/`%S`
0-59; the whole string must be consumed.  The `datetime` constructor then
checks the day against the month length and `1 <= year <= 9999`, raising
`ValueError` (= parse failure) otherwise. -/

/-- Split a character list on a separator character (the splitting underlying
`str.split`, structurally recursive so that concrete runs reduce in the
kernel). -/
def splitOnChar (sep : Char) : List Char → List (List Char)
  | [] => [[]]
  | c :: rest =>
    match splitOnChar sep rest with
    | [] => [[]]
    | w :: ws => if c = sep then [] :: w :: ws else (c :: w) :: ws

/-- Split a string on a single-character separator. -/
def strSplitOn (s : String) (sep : Char) : List String :=
  (splitOnChar sep s.data).map String.mk

/-- Numeric value of an all-digit string (structural `String.toNat?`). -/
def strToNat (s : String) : Option Nat :=
  if s.data ≠ [] ∧ s.data.all Char.isDigit then
    some (s.data.foldl (fun acc c => acc * 10 + (c.toNat - 48)) 0)
  else none

/-- A numeric strptime field of 1-2 digits with an inclusive value range. -/
def numField2 (lo hi : Nat) (s : String) : Option Nat :=
  if 1 ≤ s.length ∧ s.length ≤ 2 then
    match strToNat s with
    | some v => if lo ≤ v ∧ v ≤ hi then some v else none
    | none => none
  else none

/-- The `%Y` strptime field: exactly four digits. -/
def yearField (s : String) : Option Nat :=
  if s.length = 4 then strToNat s else none

/-- Gregorian leap year. -/
def isLeap (y : Nat) : Bool := (y % 4 == 0 && y % 100 ≠ 0) || y % 400 == 0

/-- Number of days in a month. -/
def daysInMonth (y m : Nat) : Nat :=
  if m = 2 then (if isLeap y then 29 else 28)
  else if m = 4 ∨ m = 6 ∨ m = 9 ∨ m = 11 then 30 else 31

/-- The `datetime.date` constructor: validates year range and day-of-month. -/
def mkDate (y m d : Nat) : Option Date :=
  if 1 ≤ y ∧ y ≤ 9999 ∧ 1 ≤ m ∧ m ≤ 12 ∧ 1 ≤ d ∧ d ≤ daysInMonth y m then
    some ⟨y, m, d⟩
  else none

/-- strptime with format `"%Y-%m-%d"`. -/
def parseISO (s : String) : Option Date :=
  match strSplitOn s '-' with
  | [ys, ms, ds] => do
      let y ← yearField ys
      let m ← numField2 1 12 ms
      let d ← numField2 1 31 ds
      mkDate y m d
  | _ => none

/-- strptime with format `"%m/%d/%Y"`. -/
def parseMDY (s : String) : Option Date :=
  match strSplitOn s '/' with
  | [ms, ds, ys] => do
      let m ← numField2 1 12 ms
      let d ← numField2 1 31 ds
      let y ← yearField ys
      mkDate y m d
  | _ => none

/-- strptime with format `"%d/%m/%Y"`. -/
def parseDMY (s : String) : Option Date :=
  match strSplitOn s '/' with
  | [ds, ms, ys] => do
      let d ← numField2 1 31 ds
      let m ← numField2 1 12 ms
      let y ← yearField ys
      mkDate y m d
  | _ => none

/-- strptime with format `"%Y/%m/%d"`. -/
def parseYMDslash (s : String) : Option Date :=
  match strSplitOn s '/' with
  | [ys, ms, ds] => do
      let y ← yearField ys
      let m ← numField2 1 12 ms
      let d ← numField2 1 31 ds
      mkDate y m d
  | _ => none

/-- The `"%H:%M:%S"` tail of the two datetime formats. -/
def parseHMS (s : String) : Option (Nat × Nat × Nat) :=
  match strSplitOn s ':' with
  | [hs, ms, ss] => do
      let h ← numField2 0 23 hs
      let mi ← numField2 0 59 ms
      let se ← numField2 0 59 ss
      pure (h, mi, se)
  | _ => none

/-- A date-only format read as a midnight `datetime`. -/
def liftDateFmt (f : String → Option Date) (s : String) : Option DateTime :=
  match f s with
  | some d => some ⟨d, 0, 0, 0⟩
  | none => none

/-- A `"<date> %H:%M:%S"` format (the literal space matched as one space). -/
def withHMS (f : String → Option Date) (s : String) : Option DateTime :=
  match strSplitOn s ' ' with
  | [ds, ts] => do
      let d ← f ds
      let t ← parseHMS ts
      pure ⟨d, t.1, t.2.1, t.2.2⟩
  | _ => none

/-- Try an ordered list of formats; the first that parses wins
(the `for fmt in [...]` / `break` loop of the import code). -/
def firstParse {α : Type} (fmts : List (String → Option α)) (s : String) : Option α :=
  match fmts with
  | [] => none
  | f :: rest =>
    match f s with
    | some d => some d
    | none => firstParse rest s

/-- The ordered date-of-birth format list of `import_patients` (lines 469-474):
`%Y-%m-%d`, `%m/%d/%Y`, `%d/%m/%Y`, `%Y/%m/%d`. -/
def dobFormats : List (String → Option Date) :=
  [parseISO, parseMDY, parseDMY, parseYMDslash]

/-- The ordered visit-date format list of `import_patients` (lines 532-539):
the four date formats plus `%Y-%m-%d %H:%M:%S` and `%m/%d/%Y %H:%M:%S`. -/
def visitFormats : List (String → Option DateTime) :=
  [liftDateFmt parseISO, liftDateFmt parseMDY, liftDateFmt parseDMY,
   liftDateFmt parseYMDslash, withHMS parseISO, withHMS parseMDY]

/-- import_patients lines 462-483: date-of-birth extraction from a cell.
A falsy cell stays `None`; a datetime cell yields its `.date()`; a string cell
is tried against `dobFormats`; anything else (and any parse failure) is
silently `None`. -/
def parse_dob_cell (c : Cell) : Option Date :=
  if c.truthy then
    match c with
    | .dt d => some d.date
    | .str s => firstParse dobFormats s
    | _ => none
  else none

/-- import_patients lines 526-548: visit-date extraction from a cell
(same shape as `parse_dob_cell`, with the longer format list). -/
def parse_visit_cell (c : Cell) : Option DateTime :=
  if c.truthy then
    match c with
    | .dt d => some d
    | .str s => firstParse visitFormats s
    | _ => none
  else none

/-! ### The bulk import pipeline (`import_patients`, lines 414-614) -/

/-- One spreadsheet data row: the eight positional cells
Full Name, Phone, Date of Birth, Visit Date, Clinician, Notes,
Diagnosis Code, Diagnosis Description (a short row reads as `empty` cells). -/
structure Row where
  full_name : Cell
  phone : Cell
  dob : Cell
  visit_date : Cell
  clinician : Cell
  notes : Cell
  diagnosis_code : Cell
  diagnosis_description : Cell
deriving DecidableEq, Repr

/-- The per-batch outcome counters and error list of `import_patients`. -/
structure ImportCounts where
  imported : Nat
  updated : Nat
  skipped : Nat
  duplicate : Nat
  errors : List String
deriving DecidableEq, Repr

/-- All counters zero, no errors (lines 431-435). -/
def ImportCounts.init : ImportCounts := ⟨0, 0, 0, 0, []⟩

/-- The two `db.session.flush()` calls inside the per-row `try` block are the
realistic raisers of a mid-row exception (lines 520 and 563). -/
inductive FailPoint where
  | patientFlush
  | visitFlush
deriving DecidableEq, Repr

/-- An exception oracle: for a row index, whether (and at which flush, with
which message) the database raises an error while processing that row.  The
row's `except` handler (lines 576-578) catches the exception, but a failed
flush also rolls back and deactivates the SQLAlchemy session transaction:
every later database operation raises `PendingRollbackError` until a
rollback, so the batch commit at line 581 can no longer succeed. -/
def ExcOracle : Type := Nat → Option (FailPoint × String)

/-- The SQLAlchemy session as seen by the import loop: the pending database
state together with whether the session transaction is still active.  A failed
flush deactivates the transaction; once `active` is false the `st` component
is only the session's orphaned pending state — it can never be committed,
because every further database operation (including the final
`db.session.commit()`) raises `PendingRollbackError`, and the outer handler
(lines 610-612) then rolls the whole batch back to the pre-import store. -/
structure Session where
  st : Store
  active : Bool
deriving DecidableEq, Repr

/-- The message of SQLAlchemy's `PendingRollbackError`, raised by any database
operation on a deactivated session transaction (text abbreviated). -/
def pendingRollbackMsg : String :=
  "This Session's transaction has been rolled back due to a previous exception during flush."

/-- The row's normalized full name, `str(full_name).strip()` (line 459). -/
def rowName (r : Row) : String := r.full_name.pyStr.pyStrip

/-- The row's normalized phone, `str(phone).strip() if phone else None`
(line 460). -/
def rowPhone (r : Row) : Option String :=
  if r.phone.truthy then some r.phone.pyStr.pyStrip else none

/-- The Visit record built for a row (lines 555-561): date falling back to
`now`, stripped clinician/notes, attributed to the importing account. -/
def mkImportVisit (uid : Nat) (now : DateTime) (st : Store) (r : Row) (pid : Nat) : Visit :=
  { id := st.nextVid, patient_id := pid,
    visit_date := (parse_visit_cell r.visit_date).getD now,
    clinician := if r.clinician.truthy then some r.clinician.pyStr.pyStrip else none,
    notes := if r.notes.truthy then some r.notes.pyStr.pyStrip else none,
    created_by := some uid }

/-- Diagnosis creation for a row (lines 565-574): when the description is
non-blank, append one Diagnosis with stripped code/description. -/
def addDiagnosis (st : Store) (r : Row) (vid : Nat) : Store :=
  if r.diagnosis_description.truthy ∧ r.diagnosis_description.pyStr.pyStrip ≠ "" then
    { st with diagnoses := st.diagnoses ++
        [{ visit_id := vid,
           code := if r.diagnosis_code.truthy then some r.diagnosis_code.pyStr.pyStrip else none,
           description := r.diagnosis_description.pyStr.pyStrip }] }
  else st

/-- The `skipped`/error bookkeeping of the per-row `except` handler
(lines 576-578) and of the blank-name check (lines 453-455). -/
def skipWith (c : ImportCounts) (msg : String) : ImportCounts :=
  { c with skipped := c.skipped + 1, errors := c.errors ++ [msg] }

/-- The patient-mutation step of the matched branch (lines 495-501): update
date of birth if provided and different, then phone if provided and
different. -/
def applyImportUpdates (existing : Patient) (dob : Option Date) (phone : Option String) :
    Patient :=
  let p1 := if dob.isSome = true ∧ existing.date_of_birth ≠ dob then
      { existing with date_of_birth := dob } else existing
  if pyTruthy phone = true ∧ p1.phone ≠ phone then { p1 with phone := phone } else p1

/-- The classification of a matched row (lines 503-510), evaluated — as in the
code — on the already-mutated record: `duplicate` when the mutated record now
agrees with the incoming values, else `updated`.
("Check if this is truly a duplicate (same data) or an update") -/
def classifyCounts (c : ImportCounts) (p2 : Patient) (dob : Option Date)
    (phone : Option String) : ImportCounts :=
  if p2.date_of_birth = dob ∧ p2.phone = phone then
    { c with duplicate := c.duplicate + 1 }
  else { c with updated := c.updated + 1 }

/-- The new Patient record of the create branch (lines 513-518): always
assigned to the importing account. -/
def mkImportPatient (uid : Nat) (st : Store) (r : Row) : Patient :=
  { id := st.nextPid, full_name := rowName r, phone := rowPhone r,
    date_of_birth := parse_dob_cell r.dob, doctor_id := some uid }

/-- The visit/diagnosis tail of a row (lines 523-574), run on an active
session: if a visit date or a diagnosis description is present, create a Visit
(date falling back to `now`) attributed to the importing account, then attach
a Diagnosis when the description is non-blank.  If the visit flush (line 563)
fails, its INSERT is not persisted and the session transaction is deactivated;
the row's `except` handler records the error. -/
def finishVisit (uid : Nat) (now : DateTime) (exc : ExcOracle) (st : Store)
    (idx : Nat) (r : Row) (c : ImportCounts) (pid : Nat) : Session × ImportCounts :=
  if r.visit_date.truthy || r.diagnosis_description.truthy then
    let v := mkImportVisit uid now st r pid
    match exc idx with
    | some (.visitFlush, msg) => (⟨st, false⟩, skipWith c s!"Row {idx}: {msg}")
    | _ =>
        let st1 : Store := { st with visits := st.visits ++ [v], nextVid := st.nextVid + 1 }
        (⟨addDiagnosis st1 r v.id, true⟩, c)
  else (⟨st, true⟩, c)

/-- Processing of one data row (the body of the `for row_idx, row in
enumerate(...)` loop, lines 441-578), threading the session and the counters.
A row with a missing name is rejected before any database access (lines
453-456), so it is skipped normally even on a deactivated session.  On a
deactivated session, a valid row's first database access — the duplicate-check
query of line 486 — raises `PendingRollbackError`, which the row's `except`
handler catches like any other exception.  On an active session, a failed
patient flush (line 520) leaves no persistent row, deactivates the
transaction, and skips before `imported` is incremented (the increment at line
521 follows the flush); a counter of the matched branch (lines 503-510) or the
`imported` increment is reached before the visit flush, so a row that raises
there has already counted itself. -/
def importStep (uid : Nat) (now : DateTime) (exc : ExcOracle) (sn : Session)
    (idx : Nat) (r : Row) (c : ImportCounts) : Session × ImportCounts :=
  if !r.full_name.truthy || rowName r == "" then
    (sn, skipWith c s!"Row {idx}: Missing full name")
  else if !sn.active then
    (sn, skipWith c s!"Row {idx}: {pendingRollbackMsg}")
  else
    match check_duplicate_patient (some (rowName r)) (rowPhone r) uid none sn.st.patients with
    | some existing =>
        let p2 := applyImportUpdates existing (parse_dob_cell r.dob) (rowPhone r)
        let st1 : Store :=
          { sn.st with
              patients := sn.st.patients.map (fun q => if q.id = existing.id then p2 else q) }
        finishVisit uid now exc st1 idx r
          (classifyCounts c p2 (parse_dob_cell r.dob) (rowPhone r)) p2.id
    | none =>
        match exc idx with
        | some (.patientFlush, msg) => (⟨sn.st, false⟩, skipWith c s!"Row {idx}: {msg}")
        | _ =>
            let p := mkImportPatient uid sn.st r
            let st1 : Store :=
              { sn.st with patients := sn.st.patients ++ [p], nextPid := sn.st.nextPid + 1 }
            finishVisit uid now exc st1 idx r { c with imported := c.imported + 1 } p.id

/-- The import loop over the data rows, with the 1-based sheet row index
(`enumerate(sheet.iter_rows(min_row=2, ...), start=2)` makes the first data
row index 2). -/
def importGo (uid : Nat) (now : DateTime) (exc : ExcOracle) :
    Nat → List Row → Session → ImportCounts → Session × ImportCounts
  | _, [], sn, c => (sn, c)
  | idx, r :: rs, sn, c =>
    let sc := importStep uid now exc sn idx r c
    importGo uid now exc (idx + 1) rs sc.1 sc.2

/-- The outcome of one import request: whether the single commit at line 581
succeeded, the resulting database state, and the in-process counters (flashed
to the user only on a successful commit — the outer handler's path flashes
only the error). -/
structure ImportOutcome where
  committed : Bool
  store : Store
  counts : ImportCounts
deriving DecidableEq, Repr

/-- One import request over the data rows of a sheet (lines 426-612): run the
per-row loop inside the session transaction, then commit once (line 581).  If
a failed flush deactivated the transaction, the commit raises
`PendingRollbackError` and the outer handler (lines 610-612) calls
`db.session.rollback()`: the database keeps its pre-import state. -/
def import_patients_fx (uid : Nat) (now : DateTime) (exc : ExcOracle)
    (rows : List Row) (st : Store) : ImportOutcome :=
  let sc := importGo uid now exc 2 rows ⟨st, true⟩ ImportCounts.init
  if sc.1.active then ⟨true, sc.1.st, sc.2⟩ else ⟨false, st, sc.2⟩

/-- `import_patients` on the data rows of a sheet (header row already
stripped): the run in which the database raises no error, committed once at
the end. -/
def import_patients (uid : Nat) (now : DateTime) (rows : List Row) (st : Store) :
    Store × ImportCounts :=
  ((importGo uid now (fun _ => none) 2 rows ⟨st, true⟩ ImportCounts.init).1.st,
   (importGo uid now (fun _ => none) 2 rows ⟨st, true⟩ ImportCounts.init).2)

/-! ### Interactive visit forms (visits/routes.py `new_visit`, `edit_visit`) -/

/-- The submitted `VisitForm` data: clinician, notes and the five
(code, description) diagnosis slot pairs. -/
structure VisitForm where
  clinician : Option String
  notes : Option String
  diagnosis_code_1 : Option String
  diagnosis_desc_1 : Option String
  diagnosis_code_2 : Option String
  diagnosis_desc_2 : Option String
  diagnosis_code_3 : Option String
  diagnosis_desc_3 : Option String
  diagnosis_code_4 : Option String
  diagnosis_desc_4 : Option String
  diagnosis_code_5 : Option String
  diagnosis_desc_5 : Option String
deriving DecidableEq, Repr

/-- The five diagnosis slots in order 1..5 (the `for i in range(1, 6)` loop). -/
def VisitForm.slots (f : VisitForm) : List (Option String × Option String) :=
  [(f.diagnosis_code_1, f.diagnosis_desc_1), (f.diagnosis_code_2, f.diagnosis_desc_2),
   (f.diagnosis_code_3, f.diagnosis_desc_3), (f.diagnosis_code_4, f.diagnosis_desc_4),
   (f.diagnosis_code_5, f.diagnosis_desc_5)]

/-- Python `x and x.strip()` as a boolean: the field is non-None, non-empty
and non-blank after stripping. -/
def truthyStrip : Option String → Bool
  | none => false
  | some s => s ≠ "" && s.pyStrip ≠ ""

/-- visits/routes.py lines 22-40 (`new_visit`): per-slot validation — if either
code or description is filled, the description must be non-blank and at least
3 characters after stripping. -/
def new_visit_validation_errors (f : VisitForm) : List String :=
  (List.enumFrom 1 f.slots).foldl (fun acc ic =>
    let i := ic.1
    let code := ic.2.1
    let desc := ic.2.2
    if truthyStrip code || truthyStrip desc then
      if !truthyStrip desc then
        acc ++ [s!"Diagnosis {i}: Description is required. Please fill in the diagnosis description."]
      else if ((desc.getD "").pyStrip.length < 3) then
        acc ++ [s!"Diagnosis {i}: Description must be at least 3 characters long."]
      else acc
    else acc) []

/-- visits/routes.py lines 123-135 (`edit_visit`): same validation with the
shorter first message. -/
def edit_visit_validation_errors (f : VisitForm) : List String :=
  (List.enumFrom 1 f.slots).foldl (fun acc ic =>
    let i := ic.1
    let code := ic.2.1
    let desc := ic.2.2
    if truthyStrip code || truthyStrip desc then
      if !truthyStrip desc then
        acc ++ [s!"Diagnosis {i}: Description is required."]
      else if ((desc.getD "").pyStrip.length < 3) then
        acc ++ [s!"Diagnosis {i}: Description must be at least 3 characters long."]
      else acc
    else acc) []

/-- The diagnosis rows created from a form for visit `vid` (the creation loop
of lines 56-70 resp. 150-163): one Diagnosis per slot whose description is
non-blank after stripping, with stripped code (or None) and description. -/
def mkFormDiagnoses (vid : Nat) (f : VisitForm) : List Diagnosis :=
  f.slots.filterMap (fun cd =>
    if truthyStrip cd.2 then
      some { visit_id := vid,
             code := if pyTruthy cd.1 then some ((cd.1.getD "").pyStrip) else none,
             description := (cd.2.getD "").pyStrip }
    else none)

/-- visits/routes.py `new_visit` (lines 11-83): on a validated submission for
an existing patient, create one Visit (date defaulted to now, created_by the
submitting account) and the slot diagnoses; otherwise change nothing. -/
def new_visit (uid pid : Nat) (now : DateTime) (f : VisitForm) (st : Store) : Store :=
  match st.patients.find? (fun p => p.id == pid) with
  | none => st
  | some p =>
    if new_visit_validation_errors f ≠ [] then st
    else
      let v : Visit := { id := st.nextVid, patient_id := p.id, visit_date := now,
                         clinician := f.clinician, notes := f.notes, created_by := some uid }
      { st with visits := st.visits ++ [v],
                diagnoses := st.diagnoses ++ mkFormDiagnoses st.nextVid f,
                nextVid := st.nextVid + 1 }

/-- visits/routes.py `edit_visit` (lines 106-172): on a validated submission
for an existing visit, update clinician/notes, delete the visit's old
diagnoses and add the new slot diagnoses; otherwise change nothing. -/
def edit_visit (vid : Nat) (f : VisitForm) (st : Store) : Store :=
  match st.visits.find? (fun v => v.id == vid) with
  | none => st
  | some v =>
    if edit_visit_validation_errors f ≠ [] then st
    else
      let v2 := { v with clinician := f.clinician, notes := f.notes }
      { st with visits := st.visits.map (fun w => if w.id = vid then v2 else w),
                diagnoses := st.diagnoses.filter (fun d => d.visit_id ≠ vid)
                              ++ mkFormDiagnoses vid f }

/-! ## Helper lemmas -/

/-- Membership in the duplicate-check base query implies membership in the
table and ownership by the doctor. -/
lemma mem_dupQuery {D : Nat} {ex : Option Nat} {ps : List Patient} {p : Patient}
    (h : p ∈ dupQuery D ex ps) : p ∈ ps ∧ p.doctor_id = some D := by
  simp only [dupQuery] at h
  split at h
  · split at h
    · have h2 := List.mem_filter.mp h
      have h3 := List.mem_filter.mp h2.1
      exact ⟨h3.1, by simpa using h3.2⟩
    · have h2 := List.mem_filter.mp h
      exact ⟨h2.1, by simpa using h2.2⟩
  · have h2 := List.mem_filter.mp h
    exact ⟨h2.1, by simpa using h2.2⟩

/-- Soundness of strategy 2: a returned record is a name match from the query
and one of the two phones is absent. -/
lemma dupStrat2_some {name ph : String} {q : List Patient} {p : Patient}
    (h : dupStrat2 name ph q = some p) :
    p ∈ q ∧ p.full_name = name ∧ (phoneAbsent p.phone = true ∨ ph = "") := by
  unfold dupStrat2 at h
  split at h
  · rename_i dup hfind
    split at h
    · rename_i hcond
      have hdp := Option.some.inj h
      subst hdp
      have hmem := List.mem_of_find?_eq_some hfind
      have hpred := List.find?_some hfind
      rw [beq_iff_eq] at hpred
      rw [Bool.or_eq_true] at hcond
      rcases hcond with h1 | h2
      · exact ⟨hmem, hpred, Or.inl h1⟩
      · exact ⟨hmem, hpred, Or.inr (by simpa using h2)⟩
    · exact absurd h (by simp)
  · exact absurd h (by simp)

/-- Soundness of `check_duplicate_patient`: a returned record is one of the
doctor's patients, its name matches the normalized candidate name exactly, and
its phone is the candidate phone unless one of the two is absent. -/
lemma check_duplicate_some {n ph : Option String} {D : Nat} {ex : Option Nat}
    {ps : List Patient} {p : Patient}
    (h : check_duplicate_patient n ph D ex ps = some p) :
    p ∈ ps ∧ p.doctor_id = some D ∧ p.full_name = pyStripOrEmpty n ∧
      (p.phone = some (pyStripOrEmpty ph) ∨ phoneAbsent p.phone = true ∨
        pyStripOrEmpty ph = "") := by
  simp only [check_duplicate_patient] at h
  split at h
  · split at h
    · rename_i dup hfind
      have hdp := Option.some.inj h
      subst hdp
      have hmem := List.mem_of_find?_eq_some hfind
      have hpred := List.find?_some hfind
      simp only [Bool.and_eq_true, beq_iff_eq] at hpred
      have hq := mem_dupQuery hmem
      exact ⟨hq.1, hq.2, hpred.1, Or.inl hpred.2⟩
    · have h2 := dupStrat2_some h
      have hq := mem_dupQuery h2.1
      exact ⟨hq.1, hq.2, h2.2.1, Or.inr h2.2.2⟩
  · have h2 := dupStrat2_some h
    have hq := mem_dupQuery h2.1
    exact ⟨hq.1, hq.2, h2.2.1, Or.inr h2.2.2⟩

/-! ## Claim C1 — doctor access scoping -/

/-- C1 (counterexample): the claim says a doctor's accessible patients include
every patient owned by one of its assistants.  In the code, a patient owned by
the doctor's assistant (and never visited by the doctor) is NOT returned by
`get_accessible_patients`: with doctor id 1, assistant id 2 supervised by 1,
and a patient owned by 2, the doctor's accessible list misses the patient. -/
theorem C1_counterexample :
    ((⟨1, "doctor", none⟩ : User).is_doctor = true) ∧
    ((⟨2, "assistant", some 1⟩ : User).is_assistant = true) ∧
    ((⟨2, "assistant", some 1⟩ : User).doctor_id = some (⟨1, "doctor", none⟩ : User).id) ∧
    ((⟨10, "Pat Smith", none, none, some 2⟩ : Patient).doctor_id =
        some (⟨2, "assistant", some 1⟩ : User).id) ∧
    (⟨10, "Pat Smith", none, none, some 2⟩ : Patient) ∉
      get_accessible_patients ⟨1, "doctor", none⟩
        ⟨[⟨10, "Pat Smith", none, none, some 2⟩], [], [], 11, 1⟩ := by
  decide

/-- C1 (amended): for every account with role doctor,
`get_accessible_patients` returns exactly the patients owned by the account
itself together with the patients on which the account has created at least
one visit; assistants' patients are not included unless so visited. -/
theorem C1_doctor_accessible_patients (u : User) (st : Store) (p : Patient)
    (h : u.role = "doctor") :
    p ∈ get_accessible_patients u st ↔
      p ∈ st.patients ∧ (p.doctor_id = some u.id ∨
        ∃ v ∈ st.visits, v.patient_id = p.id ∧ v.created_by = some u.id) := by
  have hA : u.is_assistant = false := by simp [User.is_assistant, h]
  simp [get_accessible_patients, hA, List.mem_filter, List.any_eq_true]

/-- Witness for C1: a patient owned by the doctor itself is accessible. -/
theorem C1_doctor_accessible_patients_witness :
    (⟨10, "Pat Smith", none, none, some 1⟩ : Patient) ∈
      get_accessible_patients ⟨1, "doctor", none⟩
        ⟨[⟨10, "Pat Smith", none, none, some 1⟩], [], [], 11, 1⟩ :=
  (C1_doctor_accessible_patients ⟨1, "doctor", none⟩
      ⟨[⟨10, "Pat Smith", none, none, some 1⟩], [], [], 11, 1⟩
      ⟨10, "Pat Smith", none, none, some 1⟩ rfl).mpr
    ⟨by decide, Or.inl rfl⟩

/-! ## Claim C9 — export selects own patients only -/

/-- C9: the Excel export selects exactly the patients whose `doctor_id` is the
exporting account's own id; for a doctor this is a subset of
`get_accessible_patients`, and strictly narrower in general — a patient owned
by another doctor but visited by the exporter is accessible yet omitted from
the export. -/
theorem C9_export_scope :
    (∀ (u : User) (st : Store) (p : Patient),
        p ∈ export_selected_patients u st ↔ p ∈ st.patients ∧ p.doctor_id = some u.id) ∧
    (∀ (u : User) (st : Store) (p : Patient), u.role = "doctor" →
        p ∈ export_selected_patients u st → p ∈ get_accessible_patients u st) ∧
    ((⟨10, "Shared Pat", none, none, some 2⟩ : Patient) ∈
        get_accessible_patients ⟨1, "doctor", none⟩
          ⟨[⟨10, "Shared Pat", none, none, some 2⟩],
           [⟨1, 10, ⟨⟨2024, 1, 1⟩, 0, 0, 0⟩, none, none, some 1⟩], [], 11, 2⟩ ∧
     (⟨10, "Shared Pat", none, none, some 2⟩ : Patient) ∉
        export_selected_patients ⟨1, "doctor", none⟩
          ⟨[⟨10, "Shared Pat", none, none, some 2⟩],
           [⟨1, 10, ⟨⟨2024, 1, 1⟩, 0, 0, 0⟩, none, none, some 1⟩], [], 11, 2⟩) := by
  refine ⟨?_, ?_, by decide, by decide⟩
  · intro u st p
    simp [export_selected_patients, List.mem_filter]
  · intro u st p h hmem
    have hA : u.is_assistant = false := by simp [User.is_assistant, h]
    have h2 := List.mem_filter.mp hmem
    refine List.mem_filter.mpr ⟨h2.1, ?_⟩
    simp only [hA, Bool.if_false_left, Bool.or_eq_true]
    left
    simpa using h2.2

/-- Witness for C9: the subset direction at a concrete doctor and store. -/
theorem C9_export_scope_witness :
    (⟨10, "Pat Smith", none, none, some 1⟩ : Patient) ∈
      get_accessible_patients ⟨1, "doctor", none⟩
        ⟨[⟨10, "Pat Smith", none, none, some 1⟩], [], [], 11, 1⟩ :=
  C9_export_scope.2.1 ⟨1, "doctor", none⟩
    ⟨[⟨10, "Pat Smith", none, none, some 1⟩], [], [], 11, 1⟩
    ⟨10, "Pat Smith", none, none, some 1⟩ rfl (by decide)

/-! ## Claim C4 — duplicate reconciliation decision order -/

/-- C4: `check_duplicate_patient` (1) only ever returns one of the doctor's
patients with an exact normalized-name match whose phone agrees with the
candidate unless one of the two is absent; (2) with a present phone, an exact
name-and-phone match is returned; (3) with a present phone and no exact pair
match, a first name match whose phone is present (and hence different) yields
`none`; (4) with an absent phone the result is the first name-only match; and
(5) the Jane Doe triple from the spec behaves as stated. -/
theorem C4_find_duplicate_decision :
    (∀ (ps : List Patient) (n ph : Option String) (D : Nat) (p : Patient),
        check_duplicate_patient n ph D none ps = some p →
          p ∈ ps ∧ p.doctor_id = some D ∧ p.full_name = pyStripOrEmpty n ∧
            (p.phone = some (pyStripOrEmpty ph) ∨ phoneAbsent p.phone = true ∨
              pyStripOrEmpty ph = "")) ∧
    (∀ (ps : List Patient) (n ph : Option String) (D : Nat) (p : Patient),
        pyStripOrEmpty ph ≠ "" →
        (dupQuery D none ps).find?
            (fun q => q.full_name == pyStripOrEmpty n &&
              q.phone == some (pyStripOrEmpty ph)) = some p →
        check_duplicate_patient n ph D none ps = some p) ∧
    (∀ (ps : List Patient) (n ph : Option String) (D : Nat) (p : Patient),
        pyStripOrEmpty ph ≠ "" →
        (dupQuery D none ps).find?
            (fun q => q.full_name == pyStripOrEmpty n &&
              q.phone == some (pyStripOrEmpty ph)) = none →
        (dupQuery D none ps).find? (fun q => q.full_name == pyStripOrEmpty n) = some p →
        phoneAbsent p.phone = false →
        check_duplicate_patient n ph D none ps = none) ∧
    (∀ (ps : List Patient) (n ph : Option String) (D : Nat),
        pyStripOrEmpty ph = "" →
        check_duplicate_patient n ph D none ps =
          (dupQuery D none ps).find? (fun q => q.full_name == pyStripOrEmpty n)) ∧
    (check_duplicate_patient (some "Jane Doe") (some "555-1111") 7 none
        [⟨1, "Jane Doe", some "555-1111", none, some 7⟩] =
      some ⟨1, "Jane Doe", some "555-1111", none, some 7⟩) ∧
    (check_duplicate_patient (some "Jane Doe") (some "555-2222") 7 none
        [⟨1, "Jane Doe", some "555-1111", none, some 7⟩] = none) ∧
    (check_duplicate_patient (some "Jane Doe") none 7 none
        [⟨1, "Jane Doe", some "555-1111", none, some 7⟩] =
      some ⟨1, "Jane Doe", some "555-1111", none, some 7⟩) := by
  refine ⟨?_, ?_, ?_, ?_, by decide, by decide, by decide⟩
  · intro ps n ph D p h
    exact check_duplicate_some h
  · intro ps n ph D p hph hfind
    simp only [check_duplicate_patient]
    rw [if_pos hph, hfind]
  · intro ps n ph D p hph hfind1 hfind2 habs
    simp only [check_duplicate_patient]
    rw [if_pos hph, hfind1]
    unfold dupStrat2
    rw [hfind2]
    have hbe : (pyStripOrEmpty ph == "") = false := by simpa using hph
    simp [habs, hbe]
  · intro ps n ph D hph
    simp only [check_duplicate_patient]
    rw [if_neg (by simpa using hph)]
    unfold dupStrat2
    cases hf : (dupQuery D none ps).find? (fun q : Patient => q.full_name == pyStripOrEmpty n) with
    | none => simp
    | some dup => simp [hph]

/-- Witness for C4: the exact-pair rule applied at a concrete (whitespace
padded) candidate. -/
theorem C4_find_duplicate_decision_witness :
    check_duplicate_patient (some " Jane Doe ") (some " 555-1111 ") 7 none
        [⟨1, "Jane Doe", some "555-1111", none, some 7⟩] =
      some ⟨1, "Jane Doe", some "555-1111", none, some 7⟩ :=
  C4_find_duplicate_decision.2.1 _ _ _ _ _ (by decide) (by decide)

/-! ## Claim C2 — updated vs duplicate classification (code bug) -/

/-- C2 (code bug, evaluated at the failing input): an existing patient
"Jane Doe"/555-1111 with no stored date of birth is matched by an import row
carrying the same name and phone plus a date of birth.  The code applies the
date-of-birth update (the stored record changes) yet increments `duplicate`
and not `updated`, because the comparison `patient.date_of_birth ==
date_of_birth` is evaluated after the mutation.  The claim (and the code's own
comment "truly a duplicate (same data)") say this row must count as
`updated`. -/
theorem C2_update_applied_but_counted_duplicate :
    (let res := import_patients 7 ⟨⟨2024, 1, 1⟩, 0, 0, 0⟩
        [⟨.str "Jane Doe", .str "555-1111", .str "1990-01-05",
          .empty, .empty, .empty, .empty, .empty⟩]
        ⟨[⟨1, "Jane Doe", some "555-1111", none, some 7⟩], [], [], 2, 1⟩
     res.1.patients = [⟨1, "Jane Doe", some "555-1111", some ⟨1990, 1, 5⟩, some 7⟩] ∧
       res.2.duplicate = 1 ∧ res.2.updated = 0) := by
  decide

/-! ## Claim C7 — date-of-birth parsing during import -/

/-- A truthy string cell is parsed against the ordered format list. -/
lemma parse_dob_cell_str {s : String} (hs : s ≠ "") :
    parse_dob_cell (Cell.str s) = firstParse dobFormats s := by
  simp [parse_dob_cell, Cell.truthy, hs]

/-- C7 (counterexample): the claim says out-of-range date-of-birth values
(future dates, or more than 150 years in the past) are silently treated as
absent during import.  In the code a parseable future date is stored as-is:
importing a row with date of birth "2200-01-01" creates the patient with that
future date recorded (not absent), with no row error. -/
theorem C7_counterexample :
    (let res := import_patients 7 ⟨⟨2024, 1, 1⟩, 0, 0, 0⟩
        [⟨.str "Old Soul", .empty, .str "2200-01-01",
          .empty, .empty, .empty, .empty, .empty⟩]
        ⟨[], [], [], 1, 1⟩
     res.1.patients = [⟨1, "Old Soul", none, some ⟨2200, 1, 1⟩, some 7⟩] ∧
       res.2.errors = [] ∧ res.2.skipped = 0 ∧ res.2.imported = 1) := by
  decide

/-- C7 (amended): a string date_of_birth is parsed against the ordered format
list `%Y-%m-%d`, `%m/%d/%Y`, `%d/%m/%Y`, `%Y/%m/%d`, the first format that
parses winning, and strings no format parses are silently treated as absent;
parseable out-of-range values are stored as parsed (no range check is applied
during import). -/
theorem C7_dob_format_order :
    (∀ (s : String) (d : Date), parseISO s = some d →
        parse_dob_cell (Cell.str s) = some d) ∧
    (∀ (s : String) (d : Date), parseISO s = none → parseMDY s = some d →
        parse_dob_cell (Cell.str s) = some d) ∧
    (∀ (s : String) (d : Date), parseISO s = none → parseMDY s = none →
        parseDMY s = some d → parse_dob_cell (Cell.str s) = some d) ∧
    (∀ (s : String) (d : Date), parseISO s = none → parseMDY s = none →
        parseDMY s = none → parseYMDslash s = some d →
        parse_dob_cell (Cell.str s) = some d) ∧
    (∀ s : String, parseISO s = none → parseMDY s = none → parseDMY s = none →
        parseYMDslash s = none → parse_dob_cell (Cell.str s) = none) ∧
    parse_dob_cell (Cell.str "02/03/2020") = some ⟨2020, 2, 3⟩ ∧
    parse_dob_cell (Cell.str "not a date") = none := by
  have hempty : ∀ {α : Type} (fmts : List (String → Option α)),
      (∀ f ∈ fmts, f "" = none) → firstParse fmts "" = none := by
    intro α fmts hf
    induction fmts with
    | nil => rfl
    | cons f fs ih =>
        simp only [firstParse]
        rw [hf f (by simp)]
        exact ih (fun g hg => hf g (by simp [hg]))
  refine ⟨?_, ?_, ?_, ?_, ?_, by decide, by decide⟩
  · intro s d h
    by_cases hs : s = ""
    · subst hs
      rw [show parseISO "" = none from rfl] at h
      exact Option.noConfusion h
    · rw [parse_dob_cell_str hs]
      simp [dobFormats, firstParse, h]
  · intro s d h1 h2
    by_cases hs : s = ""
    · subst hs
      rw [show parseMDY "" = none from rfl] at h2
      exact Option.noConfusion h2
    · rw [parse_dob_cell_str hs]
      simp [dobFormats, firstParse, h1, h2]
  · intro s d h1 h2 h3
    by_cases hs : s = ""
    · subst hs
      rw [show parseDMY "" = none from rfl] at h3
      exact Option.noConfusion h3
    · rw [parse_dob_cell_str hs]
      simp [dobFormats, firstParse, h1, h2, h3]
  · intro s d h1 h2 h3 h4
    by_cases hs : s = ""
    · subst hs
      rw [show parseYMDslash "" = none from rfl] at h4
      exact Option.noConfusion h4
    · rw [parse_dob_cell_str hs]
      simp [dobFormats, firstParse, h1, h2, h3, h4]
  · intro s h1 h2 h3 h4
    by_cases hs : s = ""
    · subst hs
      simp [parse_dob_cell, Cell.truthy]
    · rw [parse_dob_cell_str hs]
      simp [dobFormats, firstParse, h1, h2, h3, h4]

/-- Witness for C7: the first (ISO) format applied to a concrete string. -/
theorem C7_dob_format_order_witness :
    parse_dob_cell (Cell.str "1990-01-05") = some ⟨1990, 1, 5⟩ :=
  C7_dob_format_order.1 "1990-01-05" ⟨1990, 1, 5⟩ (by decide)

/-! ## Claim C6 — blank-name rows are skipped with a row-numbered error -/

/-- C6: a row with a missing or blank full name increments `skipped`, appends
the error "Row {n}: Missing full name" with the 1-based header-adjusted sheet
row number, performs no writes, and the import continues with the following
rows.  Concretely, a 3-row sheet (header plus two data rows) whose second data
row has a blank name yields one skipped row with an error mentioning "Row 3"
and `created` equal to the count of valid rows; with the blank row first, the
error mentions "Row 2" and the valid row is still imported. -/
theorem C6_blank_name_skip :
    (∀ (uid : Nat) (now : DateTime) (exc : ExcOracle) (sn : Session) (idx : Nat)
        (r : Row) (c : ImportCounts),
      r.full_name.truthy = false ∨ r.full_name.pyStr.pyStrip = "" →
      importStep uid now exc sn idx r c =
        (sn, { c with skipped := c.skipped + 1,
                      errors := c.errors ++ [s!"Row {idx}: Missing full name"] })) ∧
    (let res := import_patients 7 ⟨⟨2024, 1, 1⟩, 0, 0, 0⟩
        [⟨.str "Jane Doe", .str "555-1111", .empty, .empty, .empty, .empty, .empty, .empty⟩,
         ⟨.str "   ", .str "555-2222", .empty, .empty, .empty, .empty, .empty, .empty⟩]
        ⟨[], [], [], 1, 1⟩
     res.2.skipped = 1 ∧ res.2.errors = ["Row 3: Missing full name"] ∧
       res.2.imported = 1 ∧
       res.1.patients = [⟨1, "Jane Doe", some "555-1111", none, some 7⟩]) ∧
    (let res := import_patients 7 ⟨⟨2024, 1, 1⟩, 0, 0, 0⟩
        [⟨.str "   ", .str "555-2222", .empty, .empty, .empty, .empty, .empty, .empty⟩,
         ⟨.str "Jane Doe", .str "555-1111", .empty, .empty, .empty, .empty, .empty, .empty⟩]
        ⟨[], [], [], 1, 1⟩
     res.2.skipped = 1 ∧ res.2.errors = ["Row 2: Missing full name"] ∧
       res.2.imported = 1) := by
  refine ⟨?_, by decide, by decide⟩
  intro uid now exc sn idx r c h
  have hc : r.full_name.truthy = false ∨ rowName r = "" := by
    rcases h with h | h
    · exact Or.inl h
    · exact Or.inr h
  simp [importStep, skipWith, hc]

/-- Witness for C6: the skip rule applied at a concrete blank-name row. -/
theorem C6_blank_name_skip_witness :
    importStep 7 ⟨⟨2024, 1, 1⟩, 0, 0, 0⟩ (fun _ => none) ⟨⟨[], [], [], 1, 1⟩, true⟩ 5
        ⟨.str "  ", .empty, .empty, .empty, .empty, .empty, .empty, .empty⟩
        ImportCounts.init =
      (⟨⟨[], [], [], 1, 1⟩, true⟩,
        { ImportCounts.init with skipped := 1,
                                 errors := ["Row 5: Missing full name"] }) :=
  C6_blank_name_skip.1 7 ⟨⟨2024, 1, 1⟩, 0, 0, 0⟩ (fun _ => none) ⟨⟨[], [], [], 1, 1⟩, true⟩ 5
    ⟨.str "  ", .empty, .empty, .empty, .empty, .empty, .empty, .empty⟩
    ImportCounts.init (Or.inr (by decide))

/-! ## Helper lemmas about the import step -/

/-- Diagnosis creation changes only the diagnoses table. -/
lemma addDiagnosis_patients (st : Store) (r : Row) (vid : Nat) :
    (addDiagnosis st r vid).patients = st.patients := by
  unfold addDiagnosis
  split <;> rfl

/-- Diagnosis creation changes only the diagnoses table. -/
lemma addDiagnosis_visits (st : Store) (r : Row) (vid : Nat) :
    (addDiagnosis st r vid).visits = st.visits := by
  unfold addDiagnosis
  split <;> rfl

/-- The import updates never change a record's owning doctor. -/
lemma applyImportUpdates_doctor_id (existing : Patient) (dob : Option Date)
    (phone : Option String) :
    (applyImportUpdates existing dob phone).doctor_id = existing.doctor_id := by
  unfold applyImportUpdates
  split <;> dsimp only <;> split <;> rfl

/-- The visit/diagnosis tail never changes the patients table. -/
lemma finishVisit_patients (uid : Nat) (now : DateTime) (exc : ExcOracle) (st : Store)
    (idx : Nat) (r : Row) (c : ImportCounts) (pid : Nat) :
    (finishVisit uid now exc st idx r c pid).1.st.patients = st.patients := by
  unfold finishVisit
  split
  · split
    · rfl
    · simp [addDiagnosis_patients]
  · rfl

/-- Any visit present after the visit/diagnosis tail was either already there
or is the new visit attributed to the importing account. -/
lemma finishVisit_visits (uid : Nat) (now : DateTime) (exc : ExcOracle) (st : Store)
    (idx : Nat) (r : Row) (c : ImportCounts) (pid : Nat) :
    ∀ v ∈ (finishVisit uid now exc st idx r c pid).1.st.visits,
      v ∈ st.visits ∨ v.created_by = some uid := by
  unfold finishVisit
  split
  · split
    · intro v hv
      exact Or.inl hv
    · intro v hv
      rw [addDiagnosis_visits] at hv
      rcases List.mem_append.mp hv with h | h
      · exact Or.inl h
      · rw [List.mem_singleton] at h
        subst h
        exact Or.inr rfl
  · intro v hv
    exact Or.inl hv

/-- Any patient present after one import row was either already there or is
owned by the importing account. -/
lemma importStep_patients (uid : Nat) (now : DateTime) (exc : ExcOracle) (sn : Session)
    (idx : Nat) (r : Row) (c : ImportCounts) :
    ∀ p ∈ (importStep uid now exc sn idx r c).1.st.patients,
      p ∈ sn.st.patients ∨ p.doctor_id = some uid := by
  unfold importStep
  split
  · intro p hp
    exact Or.inl hp
  · split
    · intro p hp
      exact Or.inl hp
    · split
      · rename_i existing hdup
        intro p hp
        rw [finishVisit_patients] at hp
        rcases List.mem_map.mp hp with ⟨q, hq, hpq⟩
        by_cases hid : q.id = existing.id
        · rw [if_pos hid] at hpq
          subst hpq
          right
          rw [applyImportUpdates_doctor_id]
          exact (check_duplicate_some hdup).2.1
        · rw [if_neg hid] at hpq
          subst hpq
          exact Or.inl hq
      · rename_i hdup
        intro p hp
        split at hp
        · exact Or.inl hp
        · rw [finishVisit_patients] at hp
          rcases List.mem_append.mp hp with h | h
          · exact Or.inl h
          · rw [List.mem_singleton] at h
            subst h
            exact Or.inr rfl

/-- Any visit present after one import row was either already there or is
attributed to the importing account. -/
lemma importStep_visits (uid : Nat) (now : DateTime) (exc : ExcOracle) (sn : Session)
    (idx : Nat) (r : Row) (c : ImportCounts) :
    ∀ v ∈ (importStep uid now exc sn idx r c).1.st.visits,
      v ∈ sn.st.visits ∨ v.created_by = some uid := by
  unfold importStep
  split
  · intro v hv
    exact Or.inl hv
  · split
    · intro v hv
      exact Or.inl hv
    · split
      · intro v hv
        dsimp only at hv
        rcases finishVisit_visits uid now exc _ idx r _ _ v hv with h | h
        · exact Or.inl h
        · exact Or.inr h
      · intro v hv
        split at hv
        · exact Or.inl hv
        · dsimp only at hv
          rcases finishVisit_visits uid now exc _ idx r _ _ v hv with h | h
          · exact Or.inl h
          · exact Or.inr h

/-- When the database raises no error, the visit/diagnosis tail leaves the
session transaction active. -/
lemma finishVisit_noexc_active (uid : Nat) (now : DateTime) (st : Store) (idx : Nat)
    (r : Row) (c : ImportCounts) (pid : Nat) :
    (finishVisit uid now (fun _ => none) st idx r c pid).1.active = true := by
  unfold finishVisit
  split
  · rfl
  · rfl

/-- When the database raises no error, one import row leaves an active session
transaction active. -/
lemma importStep_noexc_active (uid : Nat) (now : DateTime) (sn : Session) (idx : Nat)
    (r : Row) (c : ImportCounts) (h : sn.active = true) :
    (importStep uid now (fun _ => none) sn idx r c).1.active = true := by
  unfold importStep
  split
  · exact h
  · split
    · exact h
    · split
      · exact finishVisit_noexc_active uid now _ idx r _ _
      · exact finishVisit_noexc_active uid now _ idx r _ _

/-- When the database raises no error, the whole import loop leaves an active
session transaction active, so the final commit succeeds. -/
lemma importGo_noexc_active (uid : Nat) (now : DateTime) :
    ∀ (rows : List Row) (idx : Nat) (sn : Session) (c : ImportCounts),
      sn.active = true →
      (importGo uid now (fun _ => none) idx rows sn c).1.active = true := by
  intro rows
  induction rows with
  | nil =>
      intro idx sn c h
      exact h
  | cons r rs ih =>
      intro idx sn c h
      simp only [importGo]
      exact ih (idx + 1) _ _ (importStep_noexc_active uid now sn idx r c h)

/-! ## Claim C8 — import ownership and attribution invariant -/

/-- C8: every patient present in the session after a bulk import (under any
per-row database failure behaviour, including none) was either already in the
store or is owned by the importing account (`doctor_id = uid`), and every
visit present was either already there or is attributed to the importing
account (`created_by = uid`). -/
theorem C8_import_attribution (uid : Nat) (now : DateTime) (exc : ExcOracle)
    (idx : Nat) (rows : List Row) (sn : Session) (c : ImportCounts) :
    (∀ p ∈ (importGo uid now exc idx rows sn c).1.st.patients,
        p ∈ sn.st.patients ∨ p.doctor_id = some uid) ∧
    (∀ v ∈ (importGo uid now exc idx rows sn c).1.st.visits,
        v ∈ sn.st.visits ∨ v.created_by = some uid) := by
  induction rows generalizing idx sn c with
  | nil =>
      exact ⟨fun p hp => Or.inl hp, fun v hv => Or.inl hv⟩
  | cons r rs ih =>
      simp only [importGo]
      have ihh := ih (idx + 1) (importStep uid now exc sn idx r c).1
        (importStep uid now exc sn idx r c).2
      constructor
      · intro p hp
        rcases ihh.1 p hp with h | h
        · exact importStep_patients uid now exc sn idx r c p h
        · exact Or.inr h
      · intro v hv
        rcases ihh.2 v hv with h | h
        · exact importStep_visits uid now exc sn idx r c v h
        · exact Or.inr h

/-- Witness for C8: the invariant applied to the patient created by a concrete
one-row import into an empty store. -/
theorem C8_import_attribution_witness :
    (⟨1, "Jane Doe", some "555-1111", none, some 7⟩ : Patient) ∈
        (⟨[], [], [], 1, 1⟩ : Store).patients ∨
      (⟨1, "Jane Doe", some "555-1111", none, some 7⟩ : Patient).doctor_id = some 7 :=
  (C8_import_attribution 7 ⟨⟨2024, 1, 1⟩, 0, 0, 0⟩ (fun _ => none) 2
      [⟨.str "Jane Doe", .str "555-1111", .empty, .empty, .empty, .empty, .empty, .empty⟩]
      ⟨⟨[], [], [], 1, 1⟩, true⟩ ImportCounts.init).1
    ⟨1, "Jane Doe", some "555-1111", none, some 7⟩ (by decide)

/-! ## Claim C3 — per-row exception handling and the batch commit -/

/-- Once the session transaction is deactivated, no later row changes it: a
blank-name row is rejected before any database access, and a valid row's first
database access raises `PendingRollbackError`, caught by the row handler. -/
lemma importStep_inactive (uid : Nat) (now : DateTime) (exc : ExcOracle) (sn : Session)
    (idx : Nat) (r : Row) (c : ImportCounts) (h : sn.active = false) :
    (importStep uid now exc sn idx r c).1 = sn := by
  unfold importStep
  split
  · rfl
  · rw [if_pos (by simp [h])]

/-- A deactivated session transaction stays deactivated (and untouched) for
the rest of the loop. -/
lemma importGo_inactive (uid : Nat) (now : DateTime) (exc : ExcOracle) :
    ∀ (rows : List Row) (idx : Nat) (sn : Session) (c : ImportCounts),
      sn.active = false → (importGo uid now exc idx rows sn c).1 = sn := by
  intro rows
  induction rows with
  | nil =>
      intro idx sn c h
      rfl
  | cons r rs ih =>
      intro idx sn c h
      simp only [importGo]
      rw [importStep_inactive uid now exc sn idx r c h]
      exact ih (idx + 1) sn _ h

/-- C3 (counterexample): the claim says the whole batch is committed exactly
once after all rows are processed and a failing row does not abort previously
successful rows.  In a two-row sheet where the first data row (sheet row 2)
imports cleanly and the second (sheet row 3) raises a database error at the
patient flush, the failing row is caught and recorded (`skipped` = 1, error
"Row 3: ...", row 2 had counted `imported` = 1) — but the failed flush
deactivated the session transaction, so the commit at line 581 raises
`PendingRollbackError` and the outer handler rolls the whole batch back:
nothing is committed, and the first row's successfully created patient is
lost. -/
theorem C3_counterexample :
    (let exc : ExcOracle := fun n =>
        if n = 3 then some (.patientFlush, "database error") else none
     let res := import_patients_fx 7 ⟨⟨2024, 1, 1⟩, 0, 0, 0⟩ exc
        [⟨.str "Alice Poe", .str "555-1111", .empty, .empty, .empty, .empty, .empty, .empty⟩,
         ⟨.str "Bob Roe", .str "555-9999", .empty, .empty, .empty, .empty, .empty, .empty⟩]
        ⟨[], [], [], 1, 1⟩
     res.counts.imported = 1 ∧ res.counts.skipped = 1 ∧
       res.counts.errors = ["Row 3: database error"] ∧
       res.committed = false ∧ res.store = ⟨[], [], [], 1, 1⟩) := by
  decide

/-- C3 (amended): an exception raised while processing a row is caught by the
per-row handler, which increments `skipped` and appends "Row {n}: {message}"
to the error list, and no partially-written data for the failing row can ever
be committed (a failed patient flush persists nothing for the row and
deactivates the session transaction).  But the failure is not contained to the
row: every following valid row fails its first database access with
`PendingRollbackError` (caught by the same handler), the deactivated
transaction persists to the end of the loop, and whenever the commit at line
581 fails the outer handler rolls the entire batch back to the pre-import
store — a failing row aborts the previously successful rows.  Only a run in
which the database raises no error commits, exactly once after all rows are
processed. -/
theorem C3_row_exception_behaviour :
    (∀ (uid : Nat) (now : DateTime) (exc : ExcOracle) (sn : Session) (idx : Nat)
        (r : Row) (c : ImportCounts) (msg : String),
      sn.active = true → r.full_name.truthy = true → rowName r ≠ "" →
      check_duplicate_patient (some (rowName r)) (rowPhone r) uid none sn.st.patients = none →
      exc idx = some (.patientFlush, msg) →
      importStep uid now exc sn idx r c =
        (⟨sn.st, false⟩, skipWith c s!"Row {idx}: {msg}")) ∧
    (∀ (uid : Nat) (now : DateTime) (exc : ExcOracle) (sn : Session) (idx : Nat)
        (r : Row) (c : ImportCounts),
      sn.active = false → r.full_name.truthy = true → rowName r ≠ "" →
      importStep uid now exc sn idx r c =
        (sn, skipWith c s!"Row {idx}: {pendingRollbackMsg}")) ∧
    (∀ (uid : Nat) (now : DateTime) (exc : ExcOracle) (idx : Nat) (rows : List Row)
        (sn : Session) (c : ImportCounts),
      sn.active = false → (importGo uid now exc idx rows sn c).1 = sn) ∧
    (∀ (uid : Nat) (now : DateTime) (exc : ExcOracle) (rows : List Row) (st0 : Store),
      (import_patients_fx uid now exc rows st0).committed = false →
        (import_patients_fx uid now exc rows st0).store = st0) ∧
    (∀ (uid : Nat) (now : DateTime) (rows : List Row) (st0 : Store),
      (import_patients_fx uid now (fun _ => none) rows st0).committed = true ∧
      (import_patients_fx uid now (fun _ => none) rows st0).store =
        (import_patients uid now rows st0).1 ∧
      (import_patients_fx uid now (fun _ => none) rows st0).counts =
        (import_patients uid now rows st0).2) := by
  refine ⟨?_, ?_, ?_, ?_, ?_⟩
  · intro uid now exc sn idx r c msg hact h1 h2 hdup hexc
    have hcb : (!r.full_name.truthy || rowName r == "") = false := by
      simp [h1, h2]
    simp only [importStep, hcb, Bool.false_eq_true, if_false, hact, Bool.not_true,
      hdup, hexc]
  · intro uid now exc sn idx r c hact h1 h2
    have hcb : (!r.full_name.truthy || rowName r == "") = false := by
      simp [h1, h2]
    simp [importStep, hcb, hact]
  · intro uid now exc idx rows sn c h
    exact importGo_inactive uid now exc rows idx sn c h
  · intro uid now exc rows st0
    cases hact : (importGo uid now exc 2 rows ⟨st0, true⟩ ImportCounts.init).1.active with
    | false => simp [import_patients_fx, hact]
    | true => simp [import_patients_fx, hact]
  · intro uid now rows st0
    have hact := importGo_noexc_active uid now rows 2 ⟨st0, true⟩ ImportCounts.init rfl
    refine ⟨?_, ?_, ?_⟩ <;> simp [import_patients_fx, import_patients, hact]

/-- Witness for C3: the catch-record-and-deactivate rule applied at a concrete
row whose patient flush fails. -/
theorem C3_row_exception_behaviour_witness :
    importStep 7 ⟨⟨2024, 1, 1⟩, 0, 0, 0⟩
        (fun n => if n = 2 then some (.patientFlush, "database error") else none)
        ⟨⟨[], [], [], 1, 1⟩, true⟩ 2
        ⟨.str "Bob Roe", .str "555-9999", .empty, .empty, .empty, .empty, .empty, .empty⟩
        ImportCounts.init =
      (⟨⟨[], [], [], 1, 1⟩, false⟩, ⟨0, 0, 1, 0, ["Row 2: database error"]⟩) :=
  C3_row_exception_behaviour.1 7 ⟨⟨2024, 1, 1⟩, 0, 0, 0⟩
    (fun n => if n = 2 then some (.patientFlush, "database error") else none)
    ⟨⟨[], [], [], 1, 1⟩, true⟩ 2
    ⟨.str "Bob Roe", .str "555-9999", .empty, .empty, .empty, .empty, .empty, .empty⟩
    ImportCounts.init "database error"
    (by decide) (by decide) (by decide) (by decide) (by decide)

/-! ## Claim C10 — diagnoses created from the interactive visit forms -/

/-- `filterMap` with a guard is `map` after `filter`. -/
lemma filterMap_guard {α β : Type} (p : α → Bool) (g : α → β) (l : List α) :
    l.filterMap (fun x => if p x then some (g x) else none) = (l.filter p).map g := by
  induction l with
  | nil => rfl
  | cons a l ih =>
      by_cases h : p a
      · simp [List.filterMap_cons, List.filter_cons, h, ih]
      · simp [List.filterMap_cons, List.filter_cons, h, ih]

/-- Every diagnosis built from a form belongs to the given visit. -/
lemma mkFormDiagnoses_visit_id (vid : Nat) (f : VisitForm) :
    ∀ d ∈ mkFormDiagnoses vid f, d.visit_id = vid := by
  intro d hd
  rcases List.mem_filterMap.mp hd with ⟨cd, _, hcd⟩
  by_cases h : truthyStrip cd.2 = true
  · rw [if_pos h] at hcd
    cases Option.some.inj hcd
    rfl
  · rw [if_neg h] at hcd
    exact Option.noConfusion hcd

/-- C10: on a validated interactive visit submission (new or edit), one
Diagnosis is created for slot i exactly when that slot's description is
non-blank after stripping — the created diagnoses are the stripped non-blank
slots in order, hence at most 5; after an edit, the visit's diagnoses are
exactly the new ones. -/
theorem C10_form_diagnoses :
    (∀ (vid : Nat) (f : VisitForm),
        mkFormDiagnoses vid f =
          (f.slots.filter (fun cd => truthyStrip cd.2)).map
            (fun cd => { visit_id := vid,
                         code := if pyTruthy cd.1 then some ((cd.1.getD "").pyStrip) else none,
                         description := (cd.2.getD "").pyStrip }) ∧
        (mkFormDiagnoses vid f).length ≤ 5) ∧
    (∀ (uid pid : Nat) (now : DateTime) (f : VisitForm) (st : Store) (p : Patient),
        st.patients.find? (fun q => q.id == pid) = some p →
        new_visit_validation_errors f = [] →
        (new_visit uid pid now f st).diagnoses =
          st.diagnoses ++ mkFormDiagnoses st.nextVid f) ∧
    (∀ (vid : Nat) (f : VisitForm) (st : Store) (v : Visit),
        st.visits.find? (fun w => w.id == vid) = some v →
        edit_visit_validation_errors f = [] →
        (edit_visit vid f st).diagnoses =
          st.diagnoses.filter (fun d => d.visit_id ≠ vid) ++ mkFormDiagnoses vid f ∧
        ((edit_visit vid f st).diagnoses.filter (fun d => d.visit_id == vid)) =
          mkFormDiagnoses vid f ∧
        ((edit_visit vid f st).diagnoses.filter (fun d => d.visit_id == vid)).length ≤ 5) := by
  have hlen : ∀ (vid : Nat) (f : VisitForm), (mkFormDiagnoses vid f).length ≤ 5 := by
    intro vid f
    calc (mkFormDiagnoses vid f).length ≤ f.slots.length := List.length_filterMap_le _ _
      _ = 5 := rfl
  refine ⟨fun vid f => ⟨filterMap_guard _ _ _, hlen vid f⟩, ?_, ?_⟩
  · intro uid pid now f st p hfind hval
    simp only [new_visit, hfind, hval]
    rw [if_neg (by simp)]
  · intro vid f st v hfind hval
    have hdiag : (edit_visit vid f st).diagnoses =
        st.diagnoses.filter (fun d => d.visit_id ≠ vid) ++ mkFormDiagnoses vid f := by
      simp only [edit_visit, hfind, hval]
      rw [if_neg (by simp)]
    refine ⟨hdiag, ?_, ?_⟩
    · rw [hdiag, List.filter_append]
      have h1 : (st.diagnoses.filter (fun d => d.visit_id ≠ vid)).filter
          (fun d => d.visit_id == vid) = [] := by
        rw [List.filter_eq_nil_iff]
        intro d hd
        have h2 := (List.mem_filter.mp hd).2
        simp only [decide_not, Bool.not_eq_eq_eq_not, Bool.not_true, decide_eq_false_iff_not] at h2
        simp [h2]
      have h2 : (mkFormDiagnoses vid f).filter (fun d => d.visit_id == vid) =
          mkFormDiagnoses vid f := by
        rw [List.filter_eq_self]
        intro d hd
        simp [mkFormDiagnoses_visit_id vid f d hd]
      rw [h1, h2, List.nil_append]
    · rw [hdiag, List.filter_append]
      have h1 : (st.diagnoses.filter (fun d => d.visit_id ≠ vid)).filter
          (fun d => d.visit_id == vid) = [] := by
        rw [List.filter_eq_nil_iff]
        intro d hd
        have h2 := (List.mem_filter.mp hd).2
        simp only [decide_not, Bool.not_eq_eq_eq_not, Bool.not_true, decide_eq_false_iff_not] at h2
        simp [h2]
      have h2 : (mkFormDiagnoses vid f).filter (fun d => d.visit_id == vid) =
          mkFormDiagnoses vid f := by
        rw [List.filter_eq_self]
        intro d hd
        simp [mkFormDiagnoses_visit_id vid f d hd]
      rw [h1, h2, List.nil_append]
      exact hlen vid f

/-- Witness for C10: a validated new-visit form with two filled slots creates
exactly those two diagnoses. -/
theorem C10_form_diagnoses_witness :
    (new_visit 7 10 ⟨⟨2024, 1, 1⟩, 0, 0, 0⟩
        ⟨some "Dr. X", none, some "A01", some "Influenza", none, some " Cold ",
         none, none, none, some "  ", none, none⟩
        ⟨[⟨10, "Pat Smith", none, none, some 7⟩], [], [], 11, 1⟩).diagnoses =
      [] ++ mkFormDiagnoses 1
        ⟨some "Dr. X", none, some "A01", some "Influenza", none, some " Cold ",
         none, none, none, some "  ", none, none⟩ :=
  C10_form_diagnoses.2.1 7 10 ⟨⟨2024, 1, 1⟩, 0, 0, 0⟩
    ⟨some "Dr. X", none, some "A01", some "Influenza", none, some " Cold ",
     none, none, none, some "  ", none, none⟩
    ⟨[⟨10, "Pat Smith", none, none, some 7⟩], [], [], 11, 1⟩
    ⟨10, "Pat Smith", none, none, some 7⟩ (by decide) (by decide)

/-! ## Claim C5 — re-importing the same sheet -/

/-- A data row that passes the blank-name check (the negation of the skip
condition at lines 453-456). -/
def rowValid (r : Row) : Bool := r.full_name.truthy && !(rowName r == "")

/-- Two rows would be reconciled as duplicates of one another: same normalized
name, and the phones do not disagree (one absent, or equal). -/
def rowsMatchable (a b : Row) : Prop :=
  rowName a = rowName b ∧
    (pyStripOrEmpty (rowPhone a) = "" ∨ pyStripOrEmpty (rowPhone b) = "" ∨
      pyStripOrEmpty (rowPhone a) = pyStripOrEmpty (rowPhone b))

instance (a b : Row) : Decidable (rowsMatchable a b) := by
  unfold rowsMatchable
  infer_instance

/-- The patients created by a clean (all-create) import run, with sequential
ids starting at `pid`. -/
def createdPatients (uid pid : Nat) : List Row → List Patient
  | [] => []
  | r :: rs =>
    if rowValid r then
      { id := pid, full_name := rowName r, phone := rowPhone r,
        date_of_birth := parse_dob_cell r.dob, doctor_id := some uid }
        :: createdPatients uid (pid + 1) rs
    else createdPatients uid pid rs

/-- C5 (counterexample): the claim fails for a sheet whose rows match each
other.  Importing two identical rows into an empty store yields created=1 and
duplicate=1 (the second row matches the first row's flushed patient); the
immediate re-import yields duplicate=2, which differs from the first import's
created count of 1. -/
theorem C5_counterexample :
    (let rows := [(⟨.str "Jane Doe", .str "555-1111", .empty, .empty, .empty,
                    .empty, .empty, .empty⟩ : Row),
                  ⟨.str "Jane Doe", .str "555-1111", .empty, .empty, .empty,
                    .empty, .empty, .empty⟩]
     let r1 := import_patients 7 ⟨⟨2024, 1, 1⟩, 0, 0, 0⟩ rows ⟨[], [], [], 1, 1⟩
     let r2 := import_patients 7 ⟨⟨2024, 1, 2⟩, 0, 0, 0⟩ rows r1.1
     r1.2.imported = 1 ∧ r1.2.duplicate = 1 ∧ r1.2.updated = 0 ∧
       r2.2.imported = 0 ∧ r2.2.duplicate = 2 ∧ r2.2.duplicate ≠ r1.2.imported) := by
  decide

/-- Stripping an already-stripped character list is the identity. -/
lemma strip_list_idem (w : Char → Bool) (d : List Char) :
    List.rdropWhile w (List.dropWhile w (List.rdropWhile w (List.dropWhile w d))) =
      List.rdropWhile w (List.dropWhile w d) := by
  have hA : List.dropWhile w (List.rdropWhile w (List.dropWhile w d)) =
      List.rdropWhile w (List.dropWhile w d) := by
    rw [List.dropWhile_eq_self_iff]
    intro hl
    obtain ⟨t, ht⟩ := List.rdropWhile_prefix w (List.dropWhile w d)
    have h0 : 0 < (List.dropWhile w d).length := by
      rw [← ht, List.length_append]
      omega
    have hget : (List.rdropWhile w (List.dropWhile w d)).get ⟨0, hl⟩ =
        (List.dropWhile w d).get ⟨0, h0⟩ := by
      have h2 := (List.rdropWhile_prefix w (List.dropWhile w d)).get_eq hl
      exact h2
    rw [hget]
    exact List.dropWhile_get_zero_not w d h0
  rw [hA, List.rdropWhile_idempotent]

/-- Python strip is idempotent. -/
lemma pyStrip_idem (s : String) : s.pyStrip.pyStrip = s.pyStrip := by
  show String.mk _ = String.mk _
  exact congrArg String.mk (strip_list_idem Char.isWhitespace s.data)

/-- Re-normalizing a row's already-normalized name is the identity. -/
lemma nameNorm_eq (r : Row) : pyStripOrEmpty (some (rowName r)) = rowName r := by
  show (if rowName r = "" then "" else (rowName r).pyStrip) = rowName r
  split
  · rename_i h
    exact h.symm
  · exact pyStrip_idem _

/-- The normalized phone string used by the duplicate check is the stored
optional phone with `""` for absent. -/
lemma phS_eq (r : Row) : pyStripOrEmpty (rowPhone r) = (rowPhone r).getD "" := by
  unfold rowPhone
  by_cases h : r.phone.truthy = true
  · rw [if_pos h]
    show (if r.phone.pyStr.pyStrip = "" then "" else r.phone.pyStr.pyStrip.pyStrip) =
      r.phone.pyStr.pyStrip
    split
    · rename_i h2
      exact h2.symm
    · exact pyStrip_idem _
  · rw [if_neg h]
    rfl

/-- When the normalized phone is non-empty, the stored phone is exactly
`some` of it. -/
lemma rowPhone_eq_some (r : Row) (h : pyStripOrEmpty (rowPhone r) ≠ "") :
    rowPhone r = some (pyStripOrEmpty (rowPhone r)) := by
  rw [phS_eq] at h ⊢
  cases hr : rowPhone r with
  | none => rw [hr] at h; exact absurd rfl h
  | some t => rfl

/-- The duplicate check finds nothing when every same-name patient of the
doctor has a conflicting present phone. -/
lemma checkDup_none_of (uid : Nat) (ps : List Patient) (n ph : Option String)
    (h : ∀ p ∈ ps, p.doctor_id = some uid → p.full_name = pyStripOrEmpty n →
      phoneAbsent p.phone = false ∧ pyStripOrEmpty ph ≠ "" ∧
        p.phone ≠ some (pyStripOrEmpty ph)) :
    check_duplicate_patient n ph uid none ps = none := by
  simp only [check_duplicate_patient]
  have hq : ∀ p ∈ dupQuery uid none ps, p ∈ ps ∧ p.doctor_id = some uid :=
    fun p hp => mem_dupQuery hp
  by_cases hph : pyStripOrEmpty ph = ""
  · rw [if_neg (by simp [hph])]
    unfold dupStrat2
    have hfind : (dupQuery uid none ps).find?
        (fun p : Patient => p.full_name == pyStripOrEmpty n) = none := by
      rw [List.find?_eq_none]
      intro p hp
      rcases hq p hp with ⟨hm, hd⟩
      simp only [beq_iff_eq]
      intro hname
      exact (h p hm hd hname).2.1 hph
    rw [hfind]
  · rw [if_pos hph]
    have hfind1 : (dupQuery uid none ps).find?
        (fun p : Patient => p.full_name == pyStripOrEmpty n &&
          p.phone == some (pyStripOrEmpty ph)) = none := by
      rw [List.find?_eq_none]
      intro p hp
      rcases hq p hp with ⟨hm, hd⟩
      simp only [Bool.and_eq_true, beq_iff_eq, not_and]
      intro hname
      exact fun hp2 => (h p hm hd hname).2.2 hp2
    rw [hfind1]
    unfold dupStrat2
    cases hf2 : (dupQuery uid none ps).find?
        (fun p : Patient => p.full_name == pyStripOrEmpty n) with
    | none => rfl
    | some dup =>
        have hpred := List.find?_some hf2
        rw [beq_iff_eq] at hpred
        have hmem := List.mem_of_find?_eq_some hf2
        rcases hq dup hmem with ⟨hm2, hd2⟩
        have h3 := h dup hm2 hd2 hpred
        have hb : (pyStripOrEmpty ph == "") = false := by simpa using hph
        simp [h3.1, hb]

/-- The duplicate check over `l1 ++ tw :: l2` returns the twin `tw` of row `r`
when every doctor patient in `l1` with the row's name has a conflicting
present phone. -/
lemma checkDup_finds_twin (uid : Nat) (l1 l2 : List Patient) (r : Row) (tw : Patient)
    (htwd : tw.doctor_id = some uid) (htwn : tw.full_name = rowName r)
    (htwp : tw.phone = rowPhone r)
    (hl1 : ∀ p ∈ l1, p.doctor_id = some uid → p.full_name = rowName r →
        pyStripOrEmpty (rowPhone r) ≠ "" ∧ p.phone ≠ some (pyStripOrEmpty (rowPhone r))) :
    check_duplicate_patient (some (rowName r)) (rowPhone r) uid none (l1 ++ tw :: l2) =
      some tw := by
  simp only [check_duplicate_patient, nameNorm_eq]
  have hquery : dupQuery uid none (l1 ++ tw :: l2) =
      (l1.filter (fun p : Patient => p.doctor_id == some uid)) ++ tw ::
        (l2.filter (fun p : Patient => p.doctor_id == some uid)) := by
    unfold dupQuery
    rw [List.filter_append, List.filter_cons_of_pos]
    simp [htwd]
  rw [hquery]
  have hl1f : ∀ p ∈ l1.filter (fun p : Patient => p.doctor_id == some uid),
      p.full_name = rowName r →
        pyStripOrEmpty (rowPhone r) ≠ "" ∧ p.phone ≠ some (pyStripOrEmpty (rowPhone r)) := by
    intro p hp hname
    have h2 := List.mem_filter.mp hp
    exact hl1 p h2.1 (by simpa using h2.2) hname
  by_cases hph : pyStripOrEmpty (rowPhone r) = ""
  · rw [if_neg (by simp [hph])]
    unfold dupStrat2
    have hfind : ((l1.filter (fun p : Patient => p.doctor_id == some uid)) ++ tw ::
        (l2.filter (fun p : Patient => p.doctor_id == some uid))).find?
          (fun p : Patient => p.full_name == rowName r) = some tw := by
      rw [List.find?_append]
      have h1 : (l1.filter (fun p : Patient => p.doctor_id == some uid)).find?
          (fun p : Patient => p.full_name == rowName r) = none := by
        rw [List.find?_eq_none]
        intro p hp
        simp only [beq_iff_eq]
        intro hname
        exact (hl1f p hp hname).1 hph
      rw [h1, List.find?_cons_of_pos]
      · rfl
      · simp [htwn]
    rw [hfind]
    simp [hph]
  · rw [if_pos hph]
    have htwp2 : tw.phone = some (pyStripOrEmpty (rowPhone r)) := by
      rw [htwp]
      exact rowPhone_eq_some r hph
    have hfind : ((l1.filter (fun p : Patient => p.doctor_id == some uid)) ++ tw ::
        (l2.filter (fun p : Patient => p.doctor_id == some uid))).find?
          (fun p : Patient => p.full_name == rowName r &&
            p.phone == some (pyStripOrEmpty (rowPhone r))) = some tw := by
      rw [List.find?_append]
      have h1 : (l1.filter (fun p : Patient => p.doctor_id == some uid)).find?
          (fun p : Patient => p.full_name == rowName r &&
            p.phone == some (pyStripOrEmpty (rowPhone r))) = none := by
        rw [List.find?_eq_none]
        intro p hp
        simp only [Bool.and_eq_true, beq_iff_eq, not_and]
        intro hname
        exact fun hp2 => (hl1f p hp hname).2 hp2
      rw [h1, List.find?_cons_of_pos]
      · rfl
      · simp [htwn, htwp2]
    rw [hfind]

/-- Diagnosis creation changes neither id counter. -/
lemma addDiagnosis_nextPid (st : Store) (r : Row) (vid : Nat) :
    (addDiagnosis st r vid).nextPid = st.nextPid := by
  unfold addDiagnosis
  split <;> rfl

/-- Without a database error, the visit/diagnosis tail keeps the patient id
counter. -/
lemma finishVisit_noexc_nextPid (uid : Nat) (now : DateTime) (st : Store) (idx : Nat)
    (r : Row) (c : ImportCounts) (pid : Nat) :
    (finishVisit uid now (fun _ => none) st idx r c pid).1.st.nextPid = st.nextPid := by
  unfold finishVisit
  split
  · show (addDiagnosis _ r _).nextPid = st.nextPid
    rw [addDiagnosis_nextPid]
  · rfl

/-- Without a database error, the visit/diagnosis tail returns the counters
unchanged. -/
lemma finishVisit_noexc_counts (uid : Nat) (now : DateTime) (st : Store) (idx : Nat)
    (r : Row) (c : ImportCounts) (pid : Nat) :
    (finishVisit uid now (fun _ => none) st idx r c pid).2 = c := by
  unfold finishVisit
  split
  · rfl
  · rfl

/-- A blank-name row is skipped: session unchanged, `skipped` bookkeeping
only. -/
lemma importStep_skip (uid : Nat) (now : DateTime) (exc : ExcOracle) (sn : Session)
    (idx : Nat) (r : Row) (c : ImportCounts) (h : rowValid r = false) :
    importStep uid now exc sn idx r c = (sn, skipWith c s!"Row {idx}: Missing full name") := by
  have hc : (!r.full_name.truthy || rowName r == "") = true := by
    unfold rowValid at h
    rcases Bool.and_eq_false_iff.mp h with h1 | h1
    · simp [h1]
    · have h2 : (rowName r == "") = true := by simpa using h1
      simp [h2]
  simp [importStep, hc]

/-- A session known to be active is the active session on its store. -/
lemma session_eta (sn : Session) (h : sn.active = true) : sn = ⟨sn.st, true⟩ := by
  cases sn with
  | mk st act =>
      dsimp only at h ⊢
      rw [h]

/-- A valid row whose duplicate check finds nothing creates exactly one new
patient record (fresh id), bumps the id counter, keeps the session active, and
counts one `imported`. -/
lemma importStep_create (uid : Nat) (now : DateTime) (st : Store) (idx : Nat)
    (r : Row) (c : ImportCounts) (hv : rowValid r = true)
    (hdup : check_duplicate_patient (some (rowName r)) (rowPhone r) uid none
      st.patients = none) :
    (importStep uid now (fun _ => none) ⟨st, true⟩ idx r c).1.st.patients =
        st.patients ++ [mkImportPatient uid st r] ∧
    (importStep uid now (fun _ => none) ⟨st, true⟩ idx r c).1.st.nextPid = st.nextPid + 1 ∧
    (importStep uid now (fun _ => none) ⟨st, true⟩ idx r c).1.active = true ∧
    (importStep uid now (fun _ => none) ⟨st, true⟩ idx r c).2 =
        { c with imported := c.imported + 1 } := by
  have hv2 : r.full_name.truthy = true ∧ ¬ rowName r = "" := by
    simpa [rowValid] using hv
  have hcb : (!r.full_name.truthy || rowName r == "") = false := by
    simp [hv2.1, hv2.2]
  have hact : (!(⟨st, true⟩ : Session).active) = false := rfl
  have hst : (⟨st, true⟩ : Session).st = st := rfl
  simp only [importStep, hcb, hact, Bool.false_eq_true, if_false, hst, hdup]
  refine ⟨?_, ?_, ?_, ?_⟩
  · show (finishVisit _ _ _ _ _ _ _ _).1.st.patients = _
    rw [finishVisit_patients]
  · show (finishVisit _ _ _ _ _ _ _ _).1.st.nextPid = _
    rw [finishVisit_noexc_nextPid]
  · show (finishVisit _ _ _ _ _ _ _ _).1.active = _
    rw [finishVisit_noexc_active]
  · show (finishVisit _ _ _ _ _ _ _ _).2 = _
    rw [finishVisit_noexc_counts]

/-- The import updates are the identity on a record that already carries the
incoming values. -/
lemma applyImportUpdates_self (p : Patient) (dob : Option Date) (phone : Option String)
    (h1 : p.date_of_birth = dob) (h2 : p.phone = phone) :
    applyImportUpdates p dob phone = p := by
  unfold applyImportUpdates
  have hc1 : ¬(dob.isSome = true ∧ p.date_of_birth ≠ dob) := fun h => h.2 h1
  have hc2 : ¬(pyTruthy phone = true ∧ p.phone ≠ phone) := fun h => h.2 h2
  simp only [if_neg hc1, if_neg hc2]

/-- Mapping a function that fixes every element is the identity. -/
lemma map_id_of {α : Type} (f : α → α) (l : List α) (h : ∀ x ∈ l, f x = x) :
    l.map f = l := by
  induction l with
  | nil => rfl
  | cons a t ih =>
      rw [List.map_cons, h a (by simp), ih (fun x hx => h x (by simp [hx]))]

/-- Replacing a member by itself (keyed by its unique id) changes nothing. -/
lemma replace_self (l : List Patient) (p : Patient) (hp : p ∈ l)
    (hnd : (l.map Patient.id).Nodup) :
    l.map (fun q => if q.id = p.id then p else q) = l := by
  apply map_id_of
  intro q hq
  by_cases h : q.id = p.id
  · rw [if_pos h]
    exact (List.inj_on_of_nodup_map hnd hq hp h).symm
  · rw [if_neg h]

/-- A valid row whose duplicate check returns its twin record leaves the
patients table untouched, keeps the session active, and counts one
`duplicate`. -/
lemma importStep_matched (uid : Nat) (now : DateTime) (st : Store) (idx : Nat)
    (r : Row) (c : ImportCounts) (tw : Patient)
    (hv : rowValid r = true)
    (hdup : check_duplicate_patient (some (rowName r)) (rowPhone r) uid none
      st.patients = some tw)
    (hdob : tw.date_of_birth = parse_dob_cell r.dob) (hph : tw.phone = rowPhone r)
    (hmem : tw ∈ st.patients) (hnd : (st.patients.map Patient.id).Nodup) :
    (importStep uid now (fun _ => none) ⟨st, true⟩ idx r c).1.st.patients = st.patients ∧
    (importStep uid now (fun _ => none) ⟨st, true⟩ idx r c).1.active = true ∧
    (importStep uid now (fun _ => none) ⟨st, true⟩ idx r c).2 =
        { c with duplicate := c.duplicate + 1 } := by
  have hv2 : r.full_name.truthy = true ∧ ¬ rowName r = "" := by
    simpa [rowValid] using hv
  have hcb : (!r.full_name.truthy || rowName r == "") = false := by
    simp [hv2.1, hv2.2]
  have hact : (!(⟨st, true⟩ : Session).active) = false := rfl
  have hst : (⟨st, true⟩ : Session).st = st := rfl
  simp only [importStep, hcb, hact, Bool.false_eq_true, if_false, hst, hdup]
  have hp2 : applyImportUpdates tw (parse_dob_cell r.dob) (rowPhone r) = tw :=
    applyImportUpdates_self tw _ _ hdob hph
  rw [hp2]
  refine ⟨?_, ?_, ?_⟩
  · rw [finishVisit_patients]
    exact replace_self st.patients tw hmem hnd
  · rw [finishVisit_noexc_active]
  · rw [finishVisit_noexc_counts]
    unfold classifyCounts
    rw [if_pos ⟨hdob, hph⟩]

/-- Every patient in a clean-import creation list originates from a valid row
of the sheet and is owned by the importing account. -/
lemma createdPatients_spec (uid : Nat) :
    ∀ (rows : List Row) (pid : Nat), ∀ p ∈ createdPatients uid pid rows,
      ∃ s ∈ rows, rowValid s = true ∧ p.full_name = rowName s ∧
        p.phone = rowPhone s ∧ p.doctor_id = some uid := by
  intro rows
  induction rows with
  | nil =>
      intro pid p hp
      exact absurd hp (by simp [createdPatients])
  | cons r rs ih =>
      intro pid p hp
      unfold createdPatients at hp
      by_cases hv : rowValid r = true
      · rw [if_pos hv] at hp
        rcases List.mem_cons.mp hp with h | h
        · subst h
          exact ⟨r, by simp, hv, rfl, rfl, rfl⟩
        · rcases ih (pid + 1) p h with ⟨s, hs, rest⟩
          exact ⟨s, by simp [hs], rest⟩
      · rw [if_neg hv] at hp
        rcases ih pid p hp with ⟨s, hs, rest⟩
        exact ⟨s, by simp [hs], rest⟩

/-- Creation lists split along list append, with the id counter advanced by
the number of valid rows. -/
lemma createdPatients_append (uid : Nat) :
    ∀ (l1 l2 : List Row) (pid : Nat),
      createdPatients uid pid (l1 ++ l2) =
        createdPatients uid pid l1 ++
          createdPatients uid (pid + (l1.filter (fun r => rowValid r)).length) l2 := by
  intro l1
  induction l1 with
  | nil =>
      intro l2 pid
      simp [createdPatients]
  | cons r rs ih =>
      intro l2 pid
      by_cases hv : rowValid r = true
      · have hlen : pid + ((r :: rs).filter (fun r => rowValid r)).length =
            (pid + 1) + (rs.filter (fun r => rowValid r)).length := by
          rw [List.filter_cons_of_pos (by simpa using hv)]
          simp
          omega
        simp only [List.cons_append, createdPatients, hv, if_true, List.append_eq, ih, hlen]
      · have hlen : pid + ((r :: rs).filter (fun r => rowValid r)).length =
            pid + (rs.filter (fun r => rowValid r)).length := by
          rw [List.filter_cons_of_neg (by simpa using hv)]
        simp only [List.cons_append, createdPatients, hv, Bool.false_eq_true, if_false,
          List.append_eq, ih, hlen]

/-- Phase 1: importing a sheet whose valid rows cannot match any doctor
patient already in the store nor each other creates one patient per valid row
(in order, with fresh sequential ids), counts them all as `imported`, and
reports no `updated` and no `duplicate`. -/
lemma import_phase1 (uid : Nat) (now : DateTime) :
    ∀ (rows : List Row) (st : Store) (idx : Nat) (c : ImportCounts),
      (∀ p ∈ st.patients, p.doctor_id = some uid →
        ∀ r ∈ rows, rowValid r = true → p.full_name = rowName r →
          phoneAbsent p.phone = false ∧ pyStripOrEmpty (rowPhone r) ≠ "" ∧
            p.phone ≠ some (pyStripOrEmpty (rowPhone r))) →
      List.Pairwise (fun a b => rowValid a = true → rowValid b = true →
        ¬ rowsMatchable a b) rows →
      (∀ p ∈ st.patients, p.id < st.nextPid) →
      (st.patients.map Patient.id).Nodup →
      (importGo uid now (fun _ => none) idx rows ⟨st, true⟩ c).1.st.patients =
          st.patients ++ createdPatients uid st.nextPid rows ∧
      (((importGo uid now (fun _ => none) idx rows ⟨st, true⟩ c).1.st.patients.map
          Patient.id).Nodup ∧
        ∀ p ∈ (importGo uid now (fun _ => none) idx rows ⟨st, true⟩ c).1.st.patients,
          p.id < (importGo uid now (fun _ => none) idx rows ⟨st, true⟩ c).1.st.nextPid) ∧
      (importGo uid now (fun _ => none) idx rows ⟨st, true⟩ c).2.imported =
          c.imported + (rows.filter (fun r => rowValid r)).length ∧
      (importGo uid now (fun _ => none) idx rows ⟨st, true⟩ c).2.updated = c.updated ∧
      (importGo uid now (fun _ => none) idx rows ⟨st, true⟩ c).2.duplicate = c.duplicate := by
  intro rows
  induction rows with
  | nil =>
      intro st idx c hinv hpw hbound hnd
      refine ⟨by simp [importGo, createdPatients], ⟨?_, ?_⟩, by simp [importGo], ?_, ?_⟩
      · simpa [importGo] using hnd
      · simpa [importGo] using hbound
      · simp [importGo]
      · simp [importGo]
  | cons r rs ih =>
      intro st idx c hinv hpw hbound hnd
      rcases List.pairwise_cons.mp hpw with ⟨hhead, htail⟩
      by_cases hv : rowValid r = true
      · -- the row creates a fresh patient
        have hdup : check_duplicate_patient (some (rowName r)) (rowPhone r) uid none
            st.patients = none := by
          apply checkDup_none_of
          intro p hp hd hname
          rw [nameNorm_eq] at hname
          exact hinv p hp hd r (by simp) hv hname
        obtain ⟨hpat, hpid, hact3, hcnt⟩ := importStep_create uid now st idx r c hv hdup
        have hinv2 : ∀ p ∈ (importStep uid now (fun _ => none) ⟨st, true⟩ idx r c).1.st.patients,
            p.doctor_id = some uid → ∀ r2 ∈ rs, rowValid r2 = true →
              p.full_name = rowName r2 →
              phoneAbsent p.phone = false ∧ pyStripOrEmpty (rowPhone r2) ≠ "" ∧
                p.phone ≠ some (pyStripOrEmpty (rowPhone r2)) := by
          rw [hpat]
          intro p hp hd r2 hr2 hval2 hname
          rcases List.mem_append.mp hp with h | h
          · exact hinv p h hd r2 (by simp [hr2]) hval2 hname
          · rw [List.mem_singleton] at h
            subst h
            have hm := hhead r2 hr2 hv hval2
            have hnm : rowName r = rowName r2 := hname
            have hres : ¬(pyStripOrEmpty (rowPhone r) = "" ∨
                pyStripOrEmpty (rowPhone r2) = "" ∨
                pyStripOrEmpty (rowPhone r) = pyStripOrEmpty (rowPhone r2)) :=
              fun hor => hm ⟨hnm, hor⟩
            push_neg at hres
            obtain ⟨h1, h2, h3⟩ := hres
            refine ⟨?_, h2, ?_⟩
            · show phoneAbsent (rowPhone r) = false
              rw [rowPhone_eq_some r h1]
              simpa [phoneAbsent] using h1
            · show rowPhone r ≠ some (pyStripOrEmpty (rowPhone r2))
              rw [rowPhone_eq_some r h1]
              intro hcon
              exact h3 (Option.some.inj hcon)
        have hbound2 : ∀ p ∈ (importStep uid now (fun _ => none) ⟨st, true⟩ idx r c).1.st.patients,
            p.id < (importStep uid now (fun _ => none) ⟨st, true⟩ idx r c).1.st.nextPid := by
          rw [hpat, hpid]
          intro p hp
          rcases List.mem_append.mp hp with h | h
          · exact Nat.lt_succ_of_lt (hbound p h)
          · rw [List.mem_singleton] at h
            subst h
            exact Nat.lt_succ_self _
        have hnd2 : ((importStep uid now (fun _ => none) ⟨st, true⟩ idx r c).1.st.patients.map
            Patient.id).Nodup := by
          rw [hpat, List.map_append]
          refine List.Nodup.append hnd (by simp) ?_
          intro a ha hb
          rcases List.mem_map.mp ha with ⟨q, hq, hqa⟩
          have h1 : a < st.nextPid := hqa ▸ hbound q hq
          have h2 : a = st.nextPid := by simpa [mkImportPatient] using hb
          omega
        have ihh := ih (importStep uid now (fun _ => none) ⟨st, true⟩ idx r c).1.st (idx + 1)
          (importStep uid now (fun _ => none) ⟨st, true⟩ idx r c).2 hinv2 htail hbound2 hnd2
        simp only [importGo]
        rw [session_eta ((importStep uid now (fun _ => none) ⟨st, true⟩ idx r c).1) hact3]
        refine ⟨?_, ihh.2.1, ?_, ?_, ?_⟩
        · rw [ihh.1, hpat, hpid]
          simp only [createdPatients, hv, if_true, mkImportPatient, List.append_assoc,
            List.singleton_append]
        · rw [ihh.2.2.1, hcnt]
          rw [List.filter_cons_of_pos (by simpa using hv)]
          simp
          omega
        · rw [ihh.2.2.2.1, hcnt]
        · rw [ihh.2.2.2.2, hcnt]
      · -- blank-name row: skipped
        have hv2 : rowValid r = false := by simpa using hv
        have hstep := importStep_skip uid now (fun _ => none) ⟨st, true⟩ idx r c hv2
        have hinv2 : ∀ p ∈ st.patients, p.doctor_id = some uid →
            ∀ r2 ∈ rs, rowValid r2 = true → p.full_name = rowName r2 →
              phoneAbsent p.phone = false ∧ pyStripOrEmpty (rowPhone r2) ≠ "" ∧
                p.phone ≠ some (pyStripOrEmpty (rowPhone r2)) :=
          fun p hp hd r2 hr2 => hinv p hp hd r2 (by simp [hr2])
        have ihh := ih st (idx + 1) (skipWith c s!"Row {idx}: Missing full name")
          hinv2 htail hbound hnd
        simp only [importGo, hstep]
        refine ⟨?_, ihh.2.1, ?_, ?_, ?_⟩
        · rw [ihh.1]
          simp only [createdPatients, hv2, Bool.false_eq_true, if_false]
        · rw [ihh.2.2.1]
          rw [List.filter_cons_of_neg (by simpa using hv2)]
          rfl
        · exact ihh.2.2.2.1
        · exact ihh.2.2.2.2

/-- Phase 2: re-importing rows whose twins (from the clean first import) are
already in the store changes no patient record, creates nothing, and counts
every valid row as `duplicate`. -/
lemma import_phase2 (uid : Nat) (now : DateTime) (base : List Patient) (pid0 : Nat)
    (hbase : ∀ p ∈ base, p.doctor_id ≠ some uid) :
    ∀ (rows done : List Row) (st : Store) (idx : Nat) (c : ImportCounts),
      st.patients = base ++ createdPatients uid pid0 (done ++ rows) →
      (st.patients.map Patient.id).Nodup →
      (∀ s ∈ done, ∀ r ∈ rows, rowValid s = true → rowValid r = true →
        ¬ rowsMatchable s r) →
      List.Pairwise (fun a b => rowValid a = true → rowValid b = true →
        ¬ rowsMatchable a b) rows →
      (importGo uid now (fun _ => none) idx rows ⟨st, true⟩ c).1.st.patients = st.patients ∧
      (importGo uid now (fun _ => none) idx rows ⟨st, true⟩ c).2.imported = c.imported ∧
      (importGo uid now (fun _ => none) idx rows ⟨st, true⟩ c).2.duplicate =
        c.duplicate + (rows.filter (fun r => rowValid r)).length := by
  intro rows
  induction rows with
  | nil =>
      intro done st idx c hpat hnd hdone hpw
      simp [importGo]
  | cons r rs ih =>
      intro done st idx c hpat hnd hdone hpw
      rcases List.pairwise_cons.mp hpw with ⟨hhead, htail⟩
      by_cases hv : rowValid r = true
      · -- the twin created by the first import is found again
        have hsteq : st.patients =
            (base ++ createdPatients uid pid0 done) ++
              ({ id := pid0 + (done.filter (fun q => rowValid q)).length,
                 full_name := rowName r, phone := rowPhone r,
                 date_of_birth := parse_dob_cell r.dob, doctor_id := some uid } : Patient) ::
                createdPatients uid (pid0 + (done.filter (fun q => rowValid q)).length + 1) rs := by
          rw [hpat, createdPatients_append]
          simp only [createdPatients, hv, if_true, List.append_assoc]
        have hl1 : ∀ p ∈ base ++ createdPatients uid pid0 done,
            p.doctor_id = some uid → p.full_name = rowName r →
              pyStripOrEmpty (rowPhone r) ≠ "" ∧
                p.phone ≠ some (pyStripOrEmpty (rowPhone r)) := by
          intro p hp hd hname
          rcases List.mem_append.mp hp with h | h
          · exact absurd hd (hbase p h)
          · rcases createdPatients_spec uid done pid0 p h with ⟨s, hs, hval, hn, hph, _⟩
            have hm := hdone s hs r (by simp) hval hv
            have hnm : rowName s = rowName r := by rw [← hn, hname]
            have hres : ¬(pyStripOrEmpty (rowPhone s) = "" ∨
                pyStripOrEmpty (rowPhone r) = "" ∨
                pyStripOrEmpty (rowPhone s) = pyStripOrEmpty (rowPhone r)) :=
              fun hor => hm ⟨hnm, hor⟩
            push_neg at hres
            obtain ⟨h1, h2, h3⟩ := hres
            refine ⟨h2, ?_⟩
            rw [hph, rowPhone_eq_some s h1]
            intro hcon
            exact h3 (Option.some.inj hcon)
        have hdup : check_duplicate_patient (some (rowName r)) (rowPhone r) uid none
            st.patients =
            some { id := pid0 + (done.filter (fun q => rowValid q)).length,
                   full_name := rowName r, phone := rowPhone r,
                   date_of_birth := parse_dob_cell r.dob, doctor_id := some uid } := by
          rw [hsteq]
          exact checkDup_finds_twin uid _ _ r _ rfl rfl rfl hl1
        have hmem : ({ id := pid0 + (done.filter (fun q => rowValid q)).length,
                       full_name := rowName r, phone := rowPhone r,
                       date_of_birth := parse_dob_cell r.dob,
                       doctor_id := some uid } : Patient) ∈ st.patients := by
          rw [hsteq]
          exact List.mem_append.mpr (Or.inr (by simp))
        obtain ⟨hpat2, hact2, hcnt2⟩ :=
          importStep_matched uid now st idx r c _ hv hdup rfl rfl hmem hnd
        have hdone2 : ∀ s ∈ done ++ [r], ∀ r2 ∈ rs, rowValid s = true →
            rowValid r2 = true → ¬ rowsMatchable s r2 := by
          intro s hs r2 hr2 hvs hvr2
          rcases List.mem_append.mp hs with h | h
          · exact hdone s h r2 (by simp [hr2]) hvs hvr2
          · rw [List.mem_singleton] at h
            subst h
            exact hhead r2 hr2 hvs hvr2
        have hpat3 : (importStep uid now (fun _ => none) ⟨st, true⟩ idx r c).1.st.patients =
            base ++ createdPatients uid pid0 ((done ++ [r]) ++ rs) := by
          rw [hpat2, hpat]
          simp [List.append_assoc]
        have hnd3 : ((importStep uid now (fun _ => none) ⟨st, true⟩ idx r c).1.st.patients.map
            Patient.id).Nodup := by
          rw [hpat2]
          exact hnd
        have ihh := ih (done ++ [r]) (importStep uid now (fun _ => none) ⟨st, true⟩ idx r c).1.st
          (idx + 1) (importStep uid now (fun _ => none) ⟨st, true⟩ idx r c).2
          hpat3 hnd3 hdone2 htail
        simp only [importGo]
        rw [session_eta ((importStep uid now (fun _ => none) ⟨st, true⟩ idx r c).1) hact2]
        refine ⟨?_, ?_, ?_⟩
        · rw [ihh.1, hpat2]
        · rw [ihh.2.1, hcnt2]
        · rw [ihh.2.2, hcnt2]
          rw [List.filter_cons_of_pos (by simpa using hv)]
          simp
          omega
      · -- blank-name row: skipped in both imports
        have hv2 : rowValid r = false := by simpa using hv
        have hstep := importStep_skip uid now (fun _ => none) ⟨st, true⟩ idx r c hv2
        have hdone2 : ∀ s ∈ done ++ [r], ∀ r2 ∈ rs, rowValid s = true →
            rowValid r2 = true → ¬ rowsMatchable s r2 := by
          intro s hs r2 hr2 hvs hvr2
          rcases List.mem_append.mp hs with h | h
          · exact hdone s h r2 (by simp [hr2]) hvs hvr2
          · rw [List.mem_singleton] at h
            subst h
            rw [hv2] at hvs
            exact absurd hvs (by simp)
        have hpat3 : st.patients = base ++ createdPatients uid pid0 ((done ++ [r]) ++ rs) := by
          rw [hpat]
          simp [List.append_assoc]
        have ihh := ih (done ++ [r]) st (idx + 1)
          (skipWith c s!"Row {idx}: Missing full name") hpat3 hnd hdone2 htail
        simp only [importGo, hstep]
        refine ⟨ihh.1, ihh.2.1, ?_⟩
        · rw [ihh.2.2]
          rw [List.filter_cons_of_neg (by simpa using hv2)]
          rfl

/-- C5 (amended): re-importing a sheet immediately after a clean first import
yields created=0 and duplicate equal to the first import's created count,
provided the store initially holds no patients of the importing doctor and no
two rows of the sheet would match each other as duplicates (equivalently, the
first import reports updated=0 and duplicate=0, which the theorem also
proves). -/
theorem C5_reimport_yields_duplicates :
    ∀ (uid : Nat) (now1 now2 : DateTime) (rows : List Row) (st0 : Store),
      (∀ p ∈ st0.patients, p.doctor_id ≠ some uid) →
      (∀ p ∈ st0.patients, p.id < st0.nextPid) →
      (st0.patients.map Patient.id).Nodup →
      List.Pairwise (fun a b => rowValid a = true → rowValid b = true →
        ¬ rowsMatchable a b) rows →
      (import_patients uid now1 rows st0).2.imported =
          (rows.filter (fun r => rowValid r)).length ∧
      (import_patients uid now1 rows st0).2.updated = 0 ∧
      (import_patients uid now1 rows st0).2.duplicate = 0 ∧
      (import_patients uid now2 rows (import_patients uid now1 rows st0).1).2.imported = 0 ∧
      (import_patients uid now2 rows
          (import_patients uid now1 rows st0).1).2.duplicate =
        (import_patients uid now1 rows st0).2.imported := by
  intro uid now1 now2 rows st0 hb0 hbound hnd hpw
  have hinv : ∀ p ∈ st0.patients, p.doctor_id = some uid →
      ∀ r ∈ rows, rowValid r = true → p.full_name = rowName r →
        phoneAbsent p.phone = false ∧ pyStripOrEmpty (rowPhone r) ≠ "" ∧
          p.phone ≠ some (pyStripOrEmpty (rowPhone r)) := by
    intro p hp hd
    exact absurd hd (hb0 p hp)
  have h1 := import_phase1 uid now1 rows st0 2 ImportCounts.init hinv hpw hbound hnd
  have hpat1 : (importGo uid now1 (fun _ => none) 2 rows ⟨st0, true⟩
        ImportCounts.init).1.st.patients =
      st0.patients ++ createdPatients uid st0.nextPid ([] ++ rows) := by
    rw [List.nil_append]
    exact h1.1
  have h2 := import_phase2 uid now2 st0.patients st0.nextPid hb0 rows []
    (importGo uid now1 (fun _ => none) 2 rows ⟨st0, true⟩ ImportCounts.init).1.st 2
    ImportCounts.init hpat1 h1.2.1.1 (by intro s hs; exact absurd hs (by simp)) hpw
  refine ⟨?_, h1.2.2.2.1, h1.2.2.2.2, h2.2.1, ?_⟩
  · show (importGo uid now1 (fun _ => none) 2 rows ⟨st0, true⟩
          ImportCounts.init).2.imported =
        (rows.filter (fun r => rowValid r)).length
    rw [h1.2.2.1]
    simp [ImportCounts.init]
  · show (importGo uid now2 (fun _ => none) 2 rows
          ⟨(importGo uid now1 (fun _ => none) 2 rows ⟨st0, true⟩ ImportCounts.init).1.st, true⟩
          ImportCounts.init).2.duplicate =
        (importGo uid now1 (fun _ => none) 2 rows ⟨st0, true⟩ ImportCounts.init).2.imported
    rw [h2.2.2, h1.2.2.1]
    simp [ImportCounts.init]

/-- Witness for C5: a two-row sheet with distinct patients imported twice into
an empty store. -/
theorem C5_reimport_yields_duplicates_witness :
    (import_patients 7 ⟨⟨2024, 1, 1⟩, 0, 0, 0⟩
        [⟨.str "Jane Doe", .str "555-1111", .empty, .empty, .empty, .empty, .empty, .empty⟩,
         ⟨.str "Bob Roe", .str "555-2222", .empty, .empty, .empty, .empty, .empty, .empty⟩]
        ⟨[], [], [], 1, 1⟩).2.imported =
      (([⟨.str "Jane Doe", .str "555-1111", .empty, .empty, .empty, .empty, .empty, .empty⟩,
         ⟨.str "Bob Roe", .str "555-2222", .empty, .empty, .empty, .empty, .empty,
           .empty⟩] : List Row).filter (fun r => rowValid r)).length ∧
    (import_patients 7 ⟨⟨2024, 1, 1⟩, 0, 0, 0⟩
        [⟨.str "Jane Doe", .str "555-1111", .empty, .empty, .empty, .empty, .empty, .empty⟩,
         ⟨.str "Bob Roe", .str "555-2222", .empty, .empty, .empty, .empty, .empty, .empty⟩]
        ⟨[], [], [], 1, 1⟩).2.updated = 0 ∧
    (import_patients 7 ⟨⟨2024, 1, 1⟩, 0, 0, 0⟩
        [⟨.str "Jane Doe", .str "555-1111", .empty, .empty, .empty, .empty, .empty, .empty⟩,
         ⟨.str "Bob Roe", .str "555-2222", .empty, .empty, .empty, .empty, .empty, .empty⟩]
        ⟨[], [], [], 1, 1⟩).2.duplicate = 0 ∧
    (import_patients 7 ⟨⟨2024, 1, 2⟩, 0, 0, 0⟩
        [⟨.str "Jane Doe", .str "555-1111", .empty, .empty, .empty, .empty, .empty, .empty⟩,
         ⟨.str "Bob Roe", .str "555-2222", .empty, .empty, .empty, .empty, .empty, .empty⟩]
        (import_patients 7 ⟨⟨2024, 1, 1⟩, 0, 0, 0⟩
          [⟨.str "Jane Doe", .str "555-1111", .empty, .empty, .empty, .empty, .empty, .empty⟩,
           ⟨.str "Bob Roe", .str "555-2222", .empty, .empty, .empty, .empty, .empty, .empty⟩]
          ⟨[], [], [], 1, 1⟩).1).2.imported = 0 ∧
    (import_patients 7 ⟨⟨2024, 1, 2⟩, 0, 0, 0⟩
        [⟨.str "Jane Doe", .str "555-1111", .empty, .empty, .empty, .empty, .empty, .empty⟩,
         ⟨.str "Bob Roe", .str "555-2222", .empty, .empty, .empty, .empty, .empty, .empty⟩]
        (import_patients 7 ⟨⟨2024, 1, 1⟩, 0, 0, 0⟩
          [⟨.str "Jane Doe", .str "555-1111", .empty, .empty, .empty, .empty, .empty, .empty⟩,
           ⟨.str "Bob Roe", .str "555-2222", .empty, .empty, .empty, .empty, .empty, .empty⟩]
          ⟨[], [], [], 1, 1⟩).1).2.duplicate =
      (import_patients 7 ⟨⟨2024, 1, 1⟩, 0, 0, 0⟩
        [⟨.str "Jane Doe", .str "555-1111", .empty, .empty, .empty, .empty, .empty, .empty⟩,
         ⟨.str "Bob Roe", .str "555-2222", .empty, .empty, .empty, .empty, .empty, .empty⟩]
        ⟨[], [], [], 1, 1⟩).2.imported :=
  C5_reimport_yields_duplicates 7 ⟨⟨2024, 1, 1⟩, 0, 0, 0⟩ ⟨⟨2024, 1, 2⟩, 0, 0, 0⟩
    [⟨.str "Jane Doe", .str "555-1111", .empty, .empty, .empty, .empty, .empty, .empty⟩,
     ⟨.str "Bob Roe", .str "555-2222", .empty, .empty, .empty, .empty, .empty, .empty⟩]
    ⟨[], [], [], 1, 1⟩ (by simp) (by simp) (by simp) (by decide)

end DoctorApp
